import Mathlib

/-!
Shallow embedding of the `cuentas_movilidad` domain core
(`src/app/cuentas/domain/...`): the `Cuenta` aggregate, the `Traslado`,
`Radicacion` and `Novedad` entities, their state enums and the value
objects their commands touch.  Python mutable entities are modelled as
immutable records; every command returns the state of the object after
the call together with an optional error message, because a Python
caller keeps its reference to the (possibly partially mutated) entity
even when the command raises.  Calendar dates are modelled by their
ordinal (an `Int`, as produced by `date.toordinal`); the implicit
`date.today()` clock is threaded through commands as an explicit
`today` argument.
-/

namespace CuentasMovilidad

/-! ### Python string primitives

Restricted to the character set the domain actually stores: ASCII plus
the accented letters that appear in the Spanish texts.  `pyWs` is the
whitespace class of `str.strip` (space, tab, newline, carriage return,
vertical tab, form feed). -/

def pyWs (c : Char) : Bool :=
  c = ' ' || c = '\t' || c = '\n' || c = '\r' || c.toNat = 11 || c.toNat = 12

/-- Python `str.strip()` on a list of characters. -/
def pyStripL (l : List Char) : List Char :=
  ((l.dropWhile pyWs).reverse.dropWhile pyWs).reverse

/-- Python `str.strip()`. -/
def pyStrip (s : String) : String := (pyStripL s.data).asString

/-- Lowercase accented vowels and enye used by the domain, paired with
their uppercase forms (each uppercase code point is 32 below the
lowercase one, as in ASCII). -/
def acentuadasMinusculas : List Nat := [225, 233, 237, 243, 250, 252, 241]

/-- Python `str.upper()` on one character (ASCII letters and the Spanish
accented letters used by the repository). -/
def pyUpperChar (c : Char) : Char :=
  if 97 ≤ c.toNat && c.toNat ≤ 122 then Char.ofNat (c.toNat - 32)
  else if acentuadasMinusculas.contains c.toNat then Char.ofNat (c.toNat - 32)
  else c

/-- Python `str.lower()` on one character (same character set). -/
def pyLowerChar (c : Char) : Char :=
  if 65 ≤ c.toNat && c.toNat ≤ 90 then Char.ofNat (c.toNat + 32)
  else if acentuadasMinusculas.contains (c.toNat + 32) then Char.ofNat (c.toNat + 32)
  else c

/-- Python `str.upper()`. -/
def pyUpper (s : String) : String := (s.data.map pyUpperChar).asString

/-- Python `str.lower()`. -/
def pyLower (s : String) : String := (s.data.map pyLowerChar).asString

/-- Membership of a character list as a contiguous infix of another. -/
def esInfijoDe (sub : List Char) : List Char → Bool
  | [] => sub.isPrefixOf []
  | c :: rest => sub.isPrefixOf (c :: rest) || esInfijoDe sub rest

/-- Python `sub in s` substring test. -/
def pyContiene (s sub : String) : Bool := esInfijoDe sub.data s.data

/-- Calendar date, by its ordinal, as compared by Python `date` ordering. -/
abbrev Fecha := Int

/-! ### Enums (`value_objects/enums`) -/

/-- `EstadoCuenta` (estado_cuenta.py). -/
inductive EstadoCuenta
  | ACTIVA
  | INACTIVA
  | EN_TRASLADO
  | EN_RADICACION
deriving DecidableEq, Repr

/-- `TipoProcesoAnterior` (tipo_proceso_anterior.py). -/
inductive TipoProcesoAnterior
  | NINGUNO
  | TRASLADO_COMPLETADO
  | TRASLADO_DEVUELTO
  | RADICACION_COMPLETADA
  | RADICACION_DEVUELTA
deriving DecidableEq, Repr

namespace TipoProcesoAnterior

/-- `TipoProcesoAnterior.permite_traslado`. -/
def permite_traslado (t : TipoProcesoAnterior) : Bool :=
  [NINGUNO, RADICACION_COMPLETADA, TRASLADO_DEVUELTO, RADICACION_DEVUELTA].contains t

/-- `TipoProcesoAnterior.permite_radicacion`. -/
def permite_radicacion (t : TipoProcesoAnterior) : Bool :=
  [NINGUNO, TRASLADO_COMPLETADO, TRASLADO_DEVUELTO, RADICACION_DEVUELTA].contains t

/-- `TipoProcesoAnterior.get_descripcion`. -/
def get_descripcion (t : TipoProcesoAnterior) : String :=
  match t with
  | NINGUNO => "Sin procesos anteriores"
  | TRASLADO_COMPLETADO => "Traslado completado exitosamente"
  | TRASLADO_DEVUELTO => "Traslado devuelto por administración"
  | RADICACION_COMPLETADA => "Radicación completada exitosamente"
  | RADICACION_DEVUELTA => "Radicación devuelta por administración"

end TipoProcesoAnterior

/-- `TipoAsignacion` (historial_asignacion.py). -/
inductive TipoAsignacion
  | CREACION
  | REASIGNACION
  | INICIO_PROCESO
  | COMPLETAR_PROCESO
  | DEVOLVER_PROCESO
  | INACTIVACION
  | REACTIVACION
deriving DecidableEq, Repr

/-! ### `HistorialAsignacion` (historial_asignacion.py)

The frozen dataclass with its `__post_init__` validation.  Building one
is fallible, so construction is an `Except`; the record stores the
already-normalized fields exactly as the Python object does after a
successful `__post_init__`. -/

structure HistorialAsignacion where
  funcionario_id : String
  fecha_asignacion : Fecha
  motivo : String
  funcionario_asigna : Option String
  tipo_asignacion : TipoAsignacion
  observaciones : Option String
deriving DecidableEq, Repr

namespace HistorialAsignacion

/-- Accent normalization done by `_detectar_tipo_asignacion` before the
keyword search (á→a, é→e, í→i, ó→o, ú→u, ñ→n) after lowercasing. -/
def quitarAcento (c : Char) : Char :=
  if c.toNat = 225 then 'a'
  else if c.toNat = 233 then 'e'
  else if c.toNat = 237 then 'i'
  else if c.toNat = 243 then 'o'
  else if c.toNat = 250 then 'u'
  else if c.toNat = 241 then 'n'
  else c

/-- `HistorialAsignacion._detectar_tipo_asignacion`: keyword search over
the lowercased, accent-stripped motivo, defaulting to REASIGNACION. -/
def detectarTipoAsignacion (motivo : String) : TipoAsignacion :=
  let m := ((pyLower motivo).data.map quitarAcento).asString
  if pyContiene m "creacion" then .CREACION
  else if pyContiene m "reasignacion" then .REASIGNACION
  else if pyContiene m "inicio" then .INICIO_PROCESO
  else if pyContiene m "completar" then .COMPLETAR_PROCESO
  else if pyContiene m "devolver" then .DEVOLVER_PROCESO
  else if pyContiene m "inactivar" then .INACTIVACION
  else if pyContiene m "reactivar" then .REACTIVACION
  else .REASIGNACION

/-- `HistorialAsignacion.__post_init__`: normalizes the fields, validates
them in source order, and auto-detects the assignment type when it was
not supplied.  `today` is the value of `date.today()`. -/
def crear (funcionario_id : String) (fecha_asignacion : Fecha) (motivo : String)
    (funcionario_asigna : Option String) (tipo_asignacion : Option TipoAsignacion)
    (observaciones : Option String) (today : Fecha) :
    Except String HistorialAsignacion :=
  let funcionario_normalizado := if funcionario_id = "" then "" else pyUpper (pyStrip funcionario_id)
  let motivo_normalizado := if motivo = "" then "" else pyStrip motivo
  let funcionario_asigna_normalizado :=
    match funcionario_asigna with
    | none => none
    | some f => if f = "" then none else some (pyUpper (pyStrip f))
  let observaciones_normalizadas :=
    match observaciones with
    | none => none
    | some o => if o = "" then none else some (pyStrip o)
  if funcionario_normalizado = "" then
    .error "El ID del funcionario no puede estar vacío"
  else if motivo_normalizado = "" then
    .error "El motivo de asignación no puede estar vacío"
  else if motivo_normalizado.length > 500 then
    .error "El motivo no puede exceder 500 caracteres"
  else if (match observaciones_normalizadas with
           | some o => o ≠ "" && o.length > 1000
           | none => false) then
    .error "Las observaciones no pueden exceder 1000 caracteres"
  else if fecha_asignacion > today then
    .error "La fecha de asignación no puede ser futura"
  else
    .ok ⟨funcionario_normalizado, fecha_asignacion, motivo_normalizado,
         funcionario_asigna_normalizado,
         tipo_asignacion.getD (detectarTipoAsignacion motivo_normalizado),
         observaciones_normalizadas⟩

/-- `HistorialAsignacion.es_asignacion_inicial`. -/
def es_asignacion_inicial (h : HistorialAsignacion) : Bool :=
  h.tipo_asignacion = .CREACION

/-- `HistorialAsignacion.crear_asignacion_inicial`. -/
def crear_asignacion_inicial (funcionario_id : String) (fecha today : Fecha) :
    Except String HistorialAsignacion :=
  crear funcionario_id fecha "creacion" none (some .CREACION) none today

/-- `HistorialAsignacion.crear_reasignacion_manual` (fecha = today). -/
def crear_reasignacion_manual (funcionario_id funcionario_asigna motivo : String)
    (observaciones : Option String) (today : Fecha) :
    Except String HistorialAsignacion :=
  crear funcionario_id today motivo (some funcionario_asigna) (some .REASIGNACION)
    observaciones today

/-- `HistorialAsignacion.crear_cambio_proceso`: builds the motivo from the
action and process kind; `if motivo_adicional:` is Python truthiness, so
an empty string behaves like `None`. -/
def crear_cambio_proceso (funcionario_id tipo_proceso accion : String)
    (motivo_adicional : Option String) (today : Fecha) :
    Except String HistorialAsignacion :=
  let motivo_base := accion ++ "_" ++ tipo_proceso
  let motivo :=
    match motivo_adicional with
    | some m => if m = "" then motivo_base else motivo_base ++ ": " ++ m
    | none => motivo_base
  let tipo : TipoAsignacion :=
    if accion = "inicio" then .INICIO_PROCESO
    else if accion = "completar" then .COMPLETAR_PROCESO
    else if accion = "devolver" then .DEVOLVER_PROCESO
    else .REASIGNACION
  crear funcionario_id today motivo none (some tipo) motivo_adicional today

/-- `HistorialAsignacion.crear_inactivacion`. -/
def crear_inactivacion (funcionario_id motivo : String) (today : Fecha) :
    Except String HistorialAsignacion :=
  crear funcionario_id today ("inactivar: " ++ motivo) none (some .INACTIVACION)
    (some motivo) today

/-- `HistorialAsignacion.crear_reactivacion`. -/
def crear_reactivacion (funcionario_id : String) (today : Fecha) :
    Except String HistorialAsignacion :=
  crear funcionario_id today "reactivar" none (some .REACTIVACION) none today

end HistorialAsignacion

/-! ### Payload value objects

`Placa`, `NumeroCuenta`, `TipoServicio` and `FechaCreacion` only flow
through the `Cuenta` claims as opaque payloads (their own format
validation in placa.py / numero_cuenta.py is not touched by any claim),
so they are modelled as wrappers around the data the aggregate reads.
`TipoServicio` is imported by cuenta.py from
value_objects/enums/tipo_servicio.py, which is not in src/. -/

/-- `Placa` value object; `str(placa)` is `valor`. -/
structure Placa where
  valor : String
deriving DecidableEq, Repr

/-- `NumeroCuenta` value object, identified by the generating date and
daily consecutive of `generar_para_hoy` (the digit-string rendering is
display-only). -/
structure NumeroCuenta where
  fecha : Fecha
  consecutivo : Int
deriving DecidableEq, Repr

/-- `NumeroCuenta.generar_para_hoy`: rejects a consecutive outside
1..99999, otherwise builds the date-encoded number for today. -/
def NumeroCuenta.generar_para_hoy (consecutivo : Int) (today : Fecha) :
    Except String NumeroCuenta :=
  if consecutivo < 1 || consecutivo > 99999 then
    .error "El consecutivo debe ser un entero entre 1 y 99999"
  else
    .ok ⟨today, consecutivo⟩

/-- Modelled from the spec: `TipoServicio` (enums/tipo_servicio.py is
missing from src/); the spec only uses it as an opaque service-kind
payload, naming the value PARTICULAR, so it is kept as a wrapped tag. -/
structure TipoServicio where
  valor : String
deriving DecidableEq, Repr

/-- `FechaCreacion` value object: a date validated (in fecha_creacion.py)
to be no later than today at construction time. -/
structure FechaCreacion where
  fecha : Fecha
deriving DecidableEq, Repr

/-! ### Domain events (events/cuenta_events.py)

Each Python event also carries a fresh `event_id` (uuid4) and a wall
clock `timestamp`; those are runtime entropy irrelevant to every claim
and are omitted, the payload fields are kept.  `aggregate_id` always
equals the placa argument, so it is not duplicated. -/

inductive DomainEvent
  | cuentaCreada (placa : String) (numero_cuenta : NumeroCuenta)
      (tipo_servicio : String) (funcionario_creador : String)
  | procesoIniciado (placa tipo_proceso funcionario : String)
      (numero_cuenta : NumeroCuenta)
  | procesoCompletado (placa tipo_proceso funcionario : String)
      (numero_cuenta : NumeroCuenta) (resultado : String)
      (motivo_devolucion : Option String)
  | cuentaReasignada (placa funcionario_anterior funcionario_nuevo : String)
      (funcionario_autoriza : Option String) (motivo : String)
  | cuentaInactivada (placa funcionario motivo : String)
  | cuentaReactivada (placa funcionario : String)
deriving DecidableEq, Repr

/-! ### The `Cuenta` aggregate (entities/cuenta.py)

Fields mirror the dataclass (public fields plus the private
`_domain_events`, `_tipo_proceso_anterior`, `_proceso_traslado_activo`,
`_proceso_radicacion_activo`; the `_initialized` latch is a Python
re-entry guard with no counterpart in an immutable record). -/

structure Cuenta where
  placa : Placa
  numero_cuenta : NumeroCuenta
  tipo_servicio : TipoServicio
  fecha_creacion : FechaCreacion
  funcionario_creador : String
  estado : EstadoCuenta
  historial_asignaciones : List HistorialAsignacion
  domain_events : List DomainEvent
  tipo_proceso_anterior : TipoProcesoAnterior
  proceso_traslado_activo : Bool
  proceso_radicacion_activo : Bool
deriving DecidableEq, Repr

namespace Cuenta

/-- `Cuenta._validar_coherencia_estado`: the four checks in source order. -/
def validarCoherenciaEstado (estado : EstadoCuenta)
    (traslado_activo radicacion_activo : Bool) : Except String Unit :=
  if estado = .EN_TRASLADO && !traslado_activo then
    .error "Estado EN_TRASLADO requiere proceso de traslado activo"
  else if estado = .EN_RADICACION && !radicacion_activo then
    .error "Estado EN_RADICACION requiere proceso de radicación activo"
  else if traslado_activo && radicacion_activo then
    .error "No puede tener ambos procesos activos simultáneamente"
  else if (estado = .ACTIVA || estado = .INACTIVA) && (traslado_activo || radicacion_activo) then
    .error "Estado ACTIVA/INACTIVA no debe tener procesos activos"
  else
    .ok ()

/-- `Cuenta.get_domain_events`: returns the pending events and clears the
buffer. -/
def get_domain_events (c : Cuenta) : List DomainEvent × Cuenta :=
  (c.domain_events, { c with domain_events := [] })

/-- `Cuenta.get_funcionario_actual`. -/
def get_funcionario_actual (c : Cuenta) : String :=
  match c.historial_asignaciones.getLast? with
  | none => c.funcionario_creador
  | some h => h.funcionario_id

/-- `Cuenta.tiene_proceso_activo`. -/
def tiene_proceso_activo (c : Cuenta) : Bool :=
  c.proceso_traslado_activo || c.proceso_radicacion_activo

/-- `Cuenta.tiene_traslado_activo`. -/
def tiene_traslado_activo (c : Cuenta) : Bool := c.proceso_traslado_activo

/-- `Cuenta.tiene_radicacion_activa`. -/
def tiene_radicacion_activa (c : Cuenta) : Bool := c.proceso_radicacion_activo

/-- `Cuenta.esta_activa`. -/
def esta_activa (c : Cuenta) : Bool := c.estado = .ACTIVA

/-- `Cuenta.esta_inactiva`. -/
def esta_inactiva (c : Cuenta) : Bool := c.estado = .INACTIVA

/-- `Cuenta.puede_iniciar_traslado`. -/
def puede_iniciar_traslado (c : Cuenta) : Bool :=
  if c.tiene_proceso_activo || c.esta_inactiva then false
  else c.tipo_proceso_anterior.permite_traslado

/-- `Cuenta.puede_iniciar_radicacion`. -/
def puede_iniciar_radicacion (c : Cuenta) : Bool :=
  if c.tiene_proceso_activo || c.esta_inactiva then false
  else c.tipo_proceso_anterior.permite_radicacion

/-- `Cuenta.get_razon_no_puede_trasladar`. -/
def get_razon_no_puede_trasladar (c : Cuenta) : Option String :=
  if c.puede_iniciar_traslado then none
  else if c.tiene_proceso_activo then
    if c.tiene_traslado_activo then some "Ya tiene un proceso de traslado activo"
    else some "Ya tiene un proceso de radicación activo"
  else if c.esta_inactiva then some "La cuenta está inactiva"
  else if !c.tipo_proceso_anterior.permite_traslado then
    if c.tipo_proceso_anterior = .TRASLADO_COMPLETADO then
      some "Esta placa ya fue enviada a otro organismo, solo puede recibir radicaciones"
    else
      some ("Proceso anterior (" ++ c.tipo_proceso_anterior.get_descripcion ++ ") no permite traslados")
  else some "No se puede determinar la razón"

/-- `Cuenta.get_razon_no_puede_radicar`. -/
def get_razon_no_puede_radicar (c : Cuenta) : Option String :=
  if c.puede_iniciar_radicacion then none
  else if c.tiene_proceso_activo then
    if c.tiene_radicacion_activa then some "Ya tiene un proceso de radicación activo"
    else some "Ya tiene un proceso de traslado activo"
  else if c.esta_inactiva then some "La cuenta está inactiva"
  else if !c.tipo_proceso_anterior.permite_radicacion then
    if c.tipo_proceso_anterior = .RADICACION_COMPLETADA then
      some "Esta placa ya llegó de otro organismo, solo puede enviar traslados"
    else
      some ("Proceso anterior (" ++ c.tipo_proceso_anterior.get_descripcion ++ ") no permite radicaciones")
  else some "No se puede determinar la razón"

/-! Commands.  Each returns the state of the entity after the call plus
`none` on success or `some message` when the Python method raises.  The
source mutates `self` field by field, so a failure raised while building
the `HistorialAsignacion` (after the flag/estado writes) leaves those
earlier writes visible to the caller; the embedding reproduces this by
returning the partially updated record alongside the error. -/

/-- `Cuenta.iniciar_proceso_traslado`. -/
def iniciar_proceso_traslado (c : Cuenta) (funcionario_id : String) (today : Fecha) :
    Cuenta × Option String :=
  if !c.puede_iniciar_traslado then
    (c, some ("No se puede iniciar traslado: " ++ (c.get_razon_no_puede_trasladar.getD "")))
  else
    let c1 := { c with proceso_traslado_activo := true, estado := .EN_TRASLADO }
    match HistorialAsignacion.crear_cambio_proceso funcionario_id "traslado" "inicio" none today with
    | .error e => (c1, some e)
    | .ok a =>
      ({ c1 with
          historial_asignaciones := c1.historial_asignaciones ++ [a],
          domain_events := c1.domain_events ++
            [.procesoIniciado c.placa.valor "traslado" funcionario_id c.numero_cuenta] },
       none)

/-- `Cuenta.iniciar_proceso_radicacion`. -/
def iniciar_proceso_radicacion (c : Cuenta) (funcionario_id : String) (today : Fecha) :
    Cuenta × Option String :=
  if !c.puede_iniciar_radicacion then
    (c, some ("No se puede iniciar radicación: " ++ (c.get_razon_no_puede_radicar.getD "")))
  else
    let c1 := { c with proceso_radicacion_activo := true, estado := .EN_RADICACION }
    match HistorialAsignacion.crear_cambio_proceso funcionario_id "radicacion" "inicio" none today with
    | .error e => (c1, some e)
    | .ok a =>
      ({ c1 with
          historial_asignaciones := c1.historial_asignaciones ++ [a],
          domain_events := c1.domain_events ++
            [.procesoIniciado c.placa.valor "radicacion" funcionario_id c.numero_cuenta] },
       none)

/-- `Cuenta.completar_proceso_traslado`. -/
def completar_proceso_traslado (c : Cuenta) (funcionario_id : String) (today : Fecha) :
    Cuenta × Option String :=
  if !c.tiene_traslado_activo then
    (c, some "No hay proceso de traslado activo para completar")
  else
    let c1 := { c with
                proceso_traslado_activo := false,
                tipo_proceso_anterior := .TRASLADO_COMPLETADO,
                estado := .ACTIVA }
    match HistorialAsignacion.crear_cambio_proceso funcionario_id "traslado" "completar" none today with
    | .error e => (c1, some e)
    | .ok a =>
      ({ c1 with
          historial_asignaciones := c1.historial_asignaciones ++ [a],
          domain_events := c1.domain_events ++
            [.procesoCompletado c.placa.valor "traslado" funcionario_id c.numero_cuenta
              "completado" none] },
       none)

/-- `Cuenta.completar_proceso_radicacion`. -/
def completar_proceso_radicacion (c : Cuenta) (funcionario_id : String) (today : Fecha) :
    Cuenta × Option String :=
  if !c.tiene_radicacion_activa then
    (c, some "No hay proceso de radicación activo para completar")
  else
    let c1 := { c with
                proceso_radicacion_activo := false,
                tipo_proceso_anterior := .RADICACION_COMPLETADA,
                estado := .ACTIVA }
    match HistorialAsignacion.crear_cambio_proceso funcionario_id "radicacion" "completar" none today with
    | .error e => (c1, some e)
    | .ok a =>
      ({ c1 with
          historial_asignaciones := c1.historial_asignaciones ++ [a],
          domain_events := c1.domain_events ++
            [.procesoCompletado c.placa.valor "radicacion" funcionario_id c.numero_cuenta
              "completado" none] },
       none)

/-- `Cuenta.devolver_proceso_traslado`. -/
def devolver_proceso_traslado (c : Cuenta) (funcionario_id motivo : String) (today : Fecha) :
    Cuenta × Option String :=
  if !c.tiene_traslado_activo then
    (c, some "No hay proceso de traslado activo para devolver")
  else
    let c1 := { c with
                proceso_traslado_activo := false,
                tipo_proceso_anterior := .TRASLADO_DEVUELTO,
                estado := .ACTIVA }
    match HistorialAsignacion.crear_cambio_proceso funcionario_id "traslado" "devolver"
        (some motivo) today with
    | .error e => (c1, some e)
    | .ok a =>
      ({ c1 with
          historial_asignaciones := c1.historial_asignaciones ++ [a],
          domain_events := c1.domain_events ++
            [.procesoCompletado c.placa.valor "traslado" funcionario_id c.numero_cuenta
              "devuelto" (some motivo)] },
       none)

/-- `Cuenta.devolver_proceso_radicacion`. -/
def devolver_proceso_radicacion (c : Cuenta) (funcionario_id motivo : String) (today : Fecha) :
    Cuenta × Option String :=
  if !c.tiene_radicacion_activa then
    (c, some "No hay proceso de radicación activo para devolver")
  else
    let c1 := { c with
                proceso_radicacion_activo := false,
                tipo_proceso_anterior := .RADICACION_DEVUELTA,
                estado := .ACTIVA }
    match HistorialAsignacion.crear_cambio_proceso funcionario_id "radicacion" "devolver"
        (some motivo) today with
    | .error e => (c1, some e)
    | .ok a =>
      ({ c1 with
          historial_asignaciones := c1.historial_asignaciones ++ [a],
          domain_events := c1.domain_events ++
            [.procesoCompletado c.placa.valor "radicacion" funcionario_id c.numero_cuenta
              "devuelto" (some motivo)] },
       none)

/-- `Cuenta.inactivar_cuenta`. -/
def inactivar_cuenta (c : Cuenta) (funcionario_id motivo : String) (today : Fecha) :
    Cuenta × Option String :=
  if c.tiene_proceso_activo then
    (c, some "No se puede inactivar una cuenta con procesos activos")
  else
    let c1 := { c with estado := .INACTIVA }
    match HistorialAsignacion.crear_inactivacion funcionario_id motivo today with
    | .error e => (c1, some e)
    | .ok a =>
      ({ c1 with
          historial_asignaciones := c1.historial_asignaciones ++ [a],
          domain_events := c1.domain_events ++
            [.cuentaInactivada c.placa.valor funcionario_id motivo] },
       none)

/-- `Cuenta.reactivar_cuenta`. -/
def reactivar_cuenta (c : Cuenta) (funcionario_id : String) (today : Fecha) :
    Cuenta × Option String :=
  if c.estado ≠ .INACTIVA then
    (c, some "Solo se pueden reactivar cuentas inactivas")
  else
    let c1 := { c with estado := .ACTIVA }
    match HistorialAsignacion.crear_reactivacion funcionario_id today with
    | .error e => (c1, some e)
    | .ok a =>
      ({ c1 with
          historial_asignaciones := c1.historial_asignaciones ++ [a],
          domain_events := c1.domain_events ++
            [.cuentaReactivada c.placa.valor funcionario_id] },
       none)

/-- `Cuenta.reasignar_funcionario` (motivo defaults to "reasignacion"). -/
def reasignar_funcionario (c : Cuenta)
    (nuevo_funcionario_id funcionario_autoriza motivo : String)
    (observaciones : Option String) (today : Fecha) : Cuenta × Option String :=
  let funcionario_anterior := c.get_funcionario_actual
  if pyUpper nuevo_funcionario_id = funcionario_anterior then
    (c, some "El funcionario ya está asignado a esta cuenta")
  else
    match HistorialAsignacion.crear_reasignacion_manual nuevo_funcionario_id
        funcionario_autoriza motivo observaciones today with
    | .error e => (c, some e)
    | .ok a =>
      ({ c with
          historial_asignaciones := c.historial_asignaciones ++ [a],
          domain_events := c.domain_events ++
            [.cuentaReasignada c.placa.valor funcionario_anterior nuevo_funcionario_id
              (some funcionario_autoriza) motivo] },
       none)

/-- `Cuenta.crear_nueva_cuenta` followed by the dataclass
`__post_init__`: validates the creator, normalizes it, seeds the initial
CREACION history entry, checks state coherence and emits the
`CuentaCreadaEvent`.  `fecha_creacion` is `FechaCreacion.crear_hoy()`,
i.e. today. -/
def crear_nueva_cuenta (placa : Placa) (tipo_servicio : TipoServicio)
    (funcionario_creador : String) (consecutivo_cuenta : Option Int) (today : Fecha) :
    Except String Cuenta :=
  match NumeroCuenta.generar_para_hoy (consecutivo_cuenta.getD 1) today with
  | .error e => .error e
  | .ok numero_cuenta =>
    if funcionario_creador = "" || pyStrip funcionario_creador = "" then
      .error "El funcionario creador no puede estar vacío"
    else
      match HistorialAsignacion.crear_asignacion_inicial
          (pyUpper (pyStrip funcionario_creador)) today today with
      | .error e => .error e
      | .ok inicial =>
        match validarCoherenciaEstado .ACTIVA false false with
        | .error e => .error e
        | .ok _ =>
          .ok { placa := placa
                numero_cuenta := numero_cuenta
                tipo_servicio := tipo_servicio
                fecha_creacion := ⟨today⟩
                funcionario_creador := pyUpper (pyStrip funcionario_creador)
                estado := .ACTIVA
                historial_asignaciones := [inicial]
                domain_events :=
                  [.cuentaCreada placa.valor numero_cuenta tipo_servicio.valor
                    (pyUpper (pyStrip funcionario_creador))]
                tipo_proceso_anterior := .NINGUNO
                proceso_traslado_activo := false
                proceso_radicacion_activo := false }

/-- `Cuenta.crear_desde_repositorio`: rehydrates every field (normalizing
the creator, copying the historial, resetting the event buffer),
re-validates the creator and the state coherence, and emits no event. -/
def crear_desde_repositorio (placa : Placa) (numero_cuenta : NumeroCuenta)
    (tipo_servicio : TipoServicio) (estado : EstadoCuenta)
    (fecha_creacion : FechaCreacion) (funcionario_creador : String)
    (historial : List HistorialAsignacion)
    (tipo_proceso_anterior : TipoProcesoAnterior)
    (proceso_traslado_activo proceso_radicacion_activo : Bool) :
    Except String Cuenta :=
  if pyUpper (pyStrip funcionario_creador) = "" ||
      pyStrip (pyUpper (pyStrip funcionario_creador)) = "" then
    .error "El funcionario creador no puede estar vacío"
  else
    match validarCoherenciaEstado estado proceso_traslado_activo proceso_radicacion_activo with
    | .error e => .error e
    | .ok _ =>
      .ok { placa := placa
            numero_cuenta := numero_cuenta
            tipo_servicio := tipo_servicio
            fecha_creacion := fecha_creacion
            funcionario_creador := pyUpper (pyStrip funcionario_creador)
            estado := estado
            historial_asignaciones := historial
            domain_events := []
            tipo_proceso_anterior := tipo_proceso_anterior
            proceso_traslado_activo := proceso_traslado_activo
            proceso_radicacion_activo := proceso_radicacion_activo }

end Cuenta

/-! ### Command sequences over a `Cuenta`

A reified command alphabet so that invariants can be stated over
arbitrary call sequences.  `ejecutar` keeps the post-call state of every
command, succeed or raise, exactly as a Python caller holding the mutable
entity does. -/

inductive Comando
  | iniciarTraslado (funcionario : String)
  | iniciarRadicacion (funcionario : String)
  | completarTraslado (funcionario : String)
  | completarRadicacion (funcionario : String)
  | devolverTraslado (funcionario motivo : String)
  | devolverRadicacion (funcionario motivo : String)
  | inactivar (funcionario motivo : String)
  | reactivar (funcionario : String)
  | reasignar (nuevo autoriza motivo : String) (observaciones : Option String)
deriving DecidableEq, Repr

/-- Dispatch one command to the matching `Cuenta` method. -/
def Cuenta.aplicar (cmd : Comando) (today : Fecha) (c : Cuenta) : Cuenta × Option String :=
  match cmd with
  | .iniciarTraslado f => c.iniciar_proceso_traslado f today
  | .iniciarRadicacion f => c.iniciar_proceso_radicacion f today
  | .completarTraslado f => c.completar_proceso_traslado f today
  | .completarRadicacion f => c.completar_proceso_radicacion f today
  | .devolverTraslado f m => c.devolver_proceso_traslado f m today
  | .devolverRadicacion f m => c.devolver_proceso_radicacion f m today
  | .inactivar f m => c.inactivar_cuenta f m today
  | .reactivar f => c.reactivar_cuenta f today
  | .reasignar n a m o => c.reasignar_funcionario n a m o today

/-- Run a sequence of commands (each with its `date.today()` value),
keeping the post-call state whether the command succeeded or raised. -/
def Cuenta.ejecutar (c : Cuenta) : List (Comando × Fecha) → Cuenta
  | [] => c
  | (cmd, t) :: rest => Cuenta.ejecutar (Cuenta.aplicar cmd t c).1 rest

/-- The state/flag coherence invariant of the spec: the two activo flags
are never both set, `estado` is EN_TRASLADO iff the traslado flag is
set, EN_RADICACION iff the radicacion flag is set, and ACTIVA/INACTIVA
iff neither flag is set. -/
def coherenteEstado (estado : EstadoCuenta) (tras rad : Bool) : Prop :=
  ¬(tras = true ∧ rad = true) ∧
  (estado = .EN_TRASLADO ↔ tras = true) ∧
  (estado = .EN_RADICACION ↔ rad = true) ∧
  ((estado = .ACTIVA ∨ estado = .INACTIVA) ↔ (tras = false ∧ rad = false))

instance (estado : EstadoCuenta) (tras rad : Bool) : Decidable (coherenteEstado estado tras rad) := by
  unfold coherenteEstado; infer_instance

/-- The coherence invariant of a `Cuenta` value. -/
def Cuenta.coherente (c : Cuenta) : Prop :=
  coherenteEstado c.estado c.proceso_traslado_activo c.proceso_radicacion_activo

instance (c : Cuenta) : Decidable c.coherente := by
  unfold Cuenta.coherente; infer_instance

/-- Decidable equality on `Except`, to let `decide` evaluate the
validation helpers. -/
instance {α β : Type} [DecidableEq α] [DecidableEq β] : DecidableEq (Except α β) := fun x y =>
  match x, y with
  | .ok a, .ok b =>
    if h : a = b then .isTrue (by rw [h]) else .isFalse (fun hh => by cases hh; exact h rfl)
  | .error a, .error b =>
    if h : a = b then .isTrue (by rw [h]) else .isFalse (fun hh => by cases hh; exact h rfl)
  | .ok _, .error _ => .isFalse (fun hh => by cases hh)
  | .error _, .ok _ => .isFalse (fun hh => by cases hh)

/-- The source `_validar_coherencia_estado` checks accept a state/flag
triple exactly when the (stronger looking) biconditional invariant
holds: the four `raise` guards together rule out every incoherent
combination. -/
theorem validarCoherenciaEstado_ok_iff (estado : EstadoCuenta) (tras rad : Bool) :
    Cuenta.validarCoherenciaEstado estado tras rad = .ok () ↔ coherenteEstado estado tras rad := by
  cases estado <;> cases tras <;> cases rad <;> decide

theorem coherente_iniciar_traslado (c : Cuenta) (f : String) (t : Fecha)
    (h : c.coherente) : ((c.iniciar_proceso_traslado f t).1).coherente := by
  unfold Cuenta.iniciar_proceso_traslado
  by_cases hp : c.puede_iniciar_traslado = true
  · rw [Cuenta.puede_iniciar_traslado] at hp
    split at hp
    · exact absurd hp (by simp)
    · rename_i hcond
      simp only [Cuenta.tiene_proceso_activo, Cuenta.esta_inactiva, Bool.or_eq_true,
        decide_eq_true_eq, not_or] at hcond
      obtain ⟨⟨h1, h2⟩, h3⟩ := hcond
      have hguard : (!c.puede_iniciar_traslado) = false := by
        simp [Cuenta.puede_iniciar_traslado, Cuenta.tiene_proceso_activo,
          Cuenta.esta_inactiva, h1, h2, h3, hp]
      rw [hguard]
      simp only [Bool.false_eq_true, if_false]
      cases hcr : HistorialAsignacion.crear_cambio_proceso f "traslado" "inicio" none t with
      | error e =>
        simp only [hcr, Cuenta.coherente, coherenteEstado]
        simp [Bool.not_eq_true] at h1 h2
        simp [h2]
      | ok a =>
        simp only [hcr, Cuenta.coherente, coherenteEstado]
        simp [Bool.not_eq_true] at h1 h2
        simp [h2]
  · have hguard : (!c.puede_iniciar_traslado) = true := by simp [hp]
    rw [hguard]
    simpa using h

theorem coherente_iniciar_radicacion (c : Cuenta) (f : String) (t : Fecha)
    (h : c.coherente) : ((c.iniciar_proceso_radicacion f t).1).coherente := by
  unfold Cuenta.iniciar_proceso_radicacion
  by_cases hp : c.puede_iniciar_radicacion = true
  · rw [Cuenta.puede_iniciar_radicacion] at hp
    split at hp
    · exact absurd hp (by simp)
    · rename_i hcond
      simp only [Cuenta.tiene_proceso_activo, Cuenta.esta_inactiva, Bool.or_eq_true,
        decide_eq_true_eq, not_or] at hcond
      obtain ⟨⟨h1, h2⟩, h3⟩ := hcond
      have hguard : (!c.puede_iniciar_radicacion) = false := by
        simp [Cuenta.puede_iniciar_radicacion, Cuenta.tiene_proceso_activo,
          Cuenta.esta_inactiva, h1, h2, h3, hp]
      rw [hguard]
      simp only [Bool.false_eq_true, if_false]
      cases hcr : HistorialAsignacion.crear_cambio_proceso f "radicacion" "inicio" none t with
      | error e =>
        simp only [hcr, Cuenta.coherente, coherenteEstado]
        simp [Bool.not_eq_true] at h1 h2
        simp [h1]
      | ok a =>
        simp only [hcr, Cuenta.coherente, coherenteEstado]
        simp [Bool.not_eq_true] at h1 h2
        simp [h1]
  · have hguard : (!c.puede_iniciar_radicacion) = true := by simp [hp]
    rw [hguard]
    simpa using h

theorem coherente_completar_traslado (c : Cuenta) (f : String) (t : Fecha)
    (h : c.coherente) : ((c.completar_proceso_traslado f t).1).coherente := by
  unfold Cuenta.completar_proceso_traslado
  by_cases ht : c.tiene_traslado_activo = true
  · have hrad : c.proceso_radicacion_activo = false := by
      rcases h with ⟨hboth, _⟩
      rw [Cuenta.tiene_traslado_activo] at ht
      by_contra hr
      exact hboth ⟨ht, by simpa using hr⟩
    simp only [ht, Bool.not_true, Bool.false_eq_true, if_false]
    cases hcr : HistorialAsignacion.crear_cambio_proceso f "traslado" "completar" none t with
    | error e => simp [hcr, Cuenta.coherente, coherenteEstado, hrad]
    | ok a => simp [hcr, Cuenta.coherente, coherenteEstado, hrad]
  · have hguard : (!c.tiene_traslado_activo) = true := by simp [ht]
    rw [hguard]
    simpa using h

theorem coherente_completar_radicacion (c : Cuenta) (f : String) (t : Fecha)
    (h : c.coherente) : ((c.completar_proceso_radicacion f t).1).coherente := by
  unfold Cuenta.completar_proceso_radicacion
  by_cases ht : c.tiene_radicacion_activa = true
  · have htras : c.proceso_traslado_activo = false := by
      rcases h with ⟨hboth, _⟩
      rw [Cuenta.tiene_radicacion_activa] at ht
      by_contra hr
      exact hboth ⟨by simpa using hr, ht⟩
    simp only [ht, Bool.not_true, Bool.false_eq_true, if_false]
    cases hcr : HistorialAsignacion.crear_cambio_proceso f "radicacion" "completar" none t with
    | error e => simp [hcr, Cuenta.coherente, coherenteEstado, htras]
    | ok a => simp [hcr, Cuenta.coherente, coherenteEstado, htras]
  · have hguard : (!c.tiene_radicacion_activa) = true := by simp [ht]
    rw [hguard]
    simpa using h

theorem coherente_devolver_traslado (c : Cuenta) (f m : String) (t : Fecha)
    (h : c.coherente) : ((c.devolver_proceso_traslado f m t).1).coherente := by
  unfold Cuenta.devolver_proceso_traslado
  by_cases ht : c.tiene_traslado_activo = true
  · have hrad : c.proceso_radicacion_activo = false := by
      rcases h with ⟨hboth, _⟩
      rw [Cuenta.tiene_traslado_activo] at ht
      by_contra hr
      exact hboth ⟨ht, by simpa using hr⟩
    simp only [ht, Bool.not_true, Bool.false_eq_true, if_false]
    cases hcr : HistorialAsignacion.crear_cambio_proceso f "traslado" "devolver" (some m) t with
    | error e => simp [hcr, Cuenta.coherente, coherenteEstado, hrad]
    | ok a => simp [hcr, Cuenta.coherente, coherenteEstado, hrad]
  · have hguard : (!c.tiene_traslado_activo) = true := by simp [ht]
    rw [hguard]
    simpa using h

theorem coherente_devolver_radicacion (c : Cuenta) (f m : String) (t : Fecha)
    (h : c.coherente) : ((c.devolver_proceso_radicacion f m t).1).coherente := by
  unfold Cuenta.devolver_proceso_radicacion
  by_cases ht : c.tiene_radicacion_activa = true
  · have htras : c.proceso_traslado_activo = false := by
      rcases h with ⟨hboth, _⟩
      rw [Cuenta.tiene_radicacion_activa] at ht
      by_contra hr
      exact hboth ⟨by simpa using hr, ht⟩
    simp only [ht, Bool.not_true, Bool.false_eq_true, if_false]
    cases hcr : HistorialAsignacion.crear_cambio_proceso f "radicacion" "devolver" (some m) t with
    | error e => simp [hcr, Cuenta.coherente, coherenteEstado, htras]
    | ok a => simp [hcr, Cuenta.coherente, coherenteEstado, htras]
  · have hguard : (!c.tiene_radicacion_activa) = true := by simp [ht]
    rw [hguard]
    simpa using h

theorem coherente_inactivar (c : Cuenta) (f m : String) (t : Fecha)
    (h : c.coherente) : ((c.inactivar_cuenta f m t).1).coherente := by
  unfold Cuenta.inactivar_cuenta
  by_cases hp : c.tiene_proceso_activo = true
  · simp only [hp, if_true]
    exact h
  · have hflags : c.proceso_traslado_activo = false ∧ c.proceso_radicacion_activo = false := by
      rw [Cuenta.tiene_proceso_activo] at hp
      simpa [not_or] using hp
    simp only [hp, if_false]
    cases hcr : HistorialAsignacion.crear_inactivacion f m t with
    | error e => simp [hcr, Cuenta.coherente, coherenteEstado, hflags.1, hflags.2]
    | ok a => simp [hcr, Cuenta.coherente, coherenteEstado, hflags.1, hflags.2]

theorem coherente_reactivar (c : Cuenta) (f : String) (t : Fecha)
    (h : c.coherente) : ((c.reactivar_cuenta f t).1).coherente := by
  unfold Cuenta.reactivar_cuenta
  by_cases hi : c.estado = EstadoCuenta.INACTIVA
  · have hflags : c.proceso_traslado_activo = false ∧ c.proceso_radicacion_activo = false := by
      rcases h with ⟨_, _, _, h4⟩
      exact h4.mp (Or.inr hi)
    simp only [hi, ne_eq, not_true_eq_false, if_false]
    cases hcr : HistorialAsignacion.crear_reactivacion f t with
    | error e => simp [hcr, Cuenta.coherente, coherenteEstado, hflags.1, hflags.2]
    | ok a => simp [hcr, Cuenta.coherente, coherenteEstado, hflags.1, hflags.2]
  · simp only [ne_eq, hi, not_false_eq_true, if_true]
    exact h

theorem coherente_reasignar (c : Cuenta) (n a m : String) (o : Option String) (t : Fecha)
    (h : c.coherente) : ((c.reasignar_funcionario n a m o t).1).coherente := by
  unfold Cuenta.reasignar_funcionario
  by_cases he : pyUpper n = c.get_funcionario_actual
  · simp only [he, if_true]
    exact h
  · simp only [he, if_false]
    cases hcr : HistorialAsignacion.crear_reasignacion_manual n a m o t with
    | error e => exact h
    | ok x =>
      simp only [Cuenta.coherente, coherenteEstado] at h ⊢
      exact h

theorem coherente_aplicar (cmd : Comando) (t : Fecha) (c : Cuenta)
    (h : c.coherente) : ((Cuenta.aplicar cmd t c).1).coherente := by
  cases cmd with
  | iniciarTraslado f => exact coherente_iniciar_traslado c f t h
  | iniciarRadicacion f => exact coherente_iniciar_radicacion c f t h
  | completarTraslado f => exact coherente_completar_traslado c f t h
  | completarRadicacion f => exact coherente_completar_radicacion c f t h
  | devolverTraslado f m => exact coherente_devolver_traslado c f m t h
  | devolverRadicacion f m => exact coherente_devolver_radicacion c f m t h
  | inactivar f m => exact coherente_inactivar c f m t h
  | reactivar f => exact coherente_reactivar c f t h
  | reasignar n a m o => exact coherente_reasignar c n a m o t h

theorem coherente_ejecutar (c : Cuenta) (cmds : List (Comando × Fecha))
    (h : c.coherente) : (Cuenta.ejecutar c cmds).coherente := by
  induction cmds generalizing c with
  | nil => exact h
  | cons p rest ih =>
    cases p with
    | mk cmd t => exact ih _ (coherente_aplicar cmd t c h)

theorem coherente_crear_nueva (placa : Placa) (ts : TipoServicio) (f : String)
    (cons : Option Int) (today : Fecha) (c : Cuenta)
    (h : Cuenta.crear_nueva_cuenta placa ts f cons today = .ok c) : c.coherente := by
  unfold Cuenta.crear_nueva_cuenta at h
  repeat' split at h
  all_goals cases h
  all_goals simp [Cuenta.coherente, coherenteEstado]

theorem coherente_crear_desde_repositorio (placa : Placa) (num : NumeroCuenta)
    (ts : TipoServicio) (estado : EstadoCuenta) (fc : FechaCreacion) (f : String)
    (historial : List HistorialAsignacion) (tipo : TipoProcesoAnterior)
    (tras rad : Bool) (c : Cuenta)
    (h : Cuenta.crear_desde_repositorio placa num ts estado fc f historial tipo tras rad = .ok c) :
    c.coherente := by
  unfold Cuenta.crear_desde_repositorio at h
  repeat' split at h
  all_goals cases h
  all_goals rename_i u hv
  all_goals cases u
  all_goals exact (validarCoherenciaEstado_ok_iff estado tras rad).mp hv

/-- C1: after either construction path and any sequence of commands, the
two activo flags are never both set, `estado == EN_TRASLADO` iff the
traslado flag is set, `estado == EN_RADICACION` iff the radicacion flag
is set, and `estado` is ACTIVA or INACTIVA iff neither flag is set. -/
theorem cuenta_invariante_coherencia :
    (∀ (placa : Placa) (ts : TipoServicio) (f : String) (cons : Option Int) (today : Fecha)
        (c : Cuenta) (cmds : List (Comando × Fecha)),
      Cuenta.crear_nueva_cuenta placa ts f cons today = .ok c →
      (Cuenta.ejecutar c cmds).coherente) ∧
    (∀ (placa : Placa) (num : NumeroCuenta) (ts : TipoServicio) (estado : EstadoCuenta)
        (fc : FechaCreacion) (f : String) (historial : List HistorialAsignacion)
        (tipo : TipoProcesoAnterior) (tras rad : Bool) (c : Cuenta)
        (cmds : List (Comando × Fecha)),
      Cuenta.crear_desde_repositorio placa num ts estado fc f historial tipo tras rad = .ok c →
      (Cuenta.ejecutar c cmds).coherente) := by
  constructor
  · intro placa ts f cons today c cmds h
    exact coherente_ejecutar c cmds (coherente_crear_nueva placa ts f cons today c h)
  · intro placa num ts estado fc f historial tipo tras rad c cmds h
    exact coherente_ejecutar c cmds
      (coherente_crear_desde_repositorio placa num ts estado fc f historial tipo tras rad c h)

/-- Concrete instantiation of `cuenta_invariante_coherencia`: both
construction paths at explicit inputs, each followed by a command
sequence. -/
theorem cuenta_invariante_coherencia_witness :
    (Cuenta.ejecutar
      { placa := ⟨"ABC123"⟩, numero_cuenta := ⟨739517, 1⟩, tipo_servicio := ⟨"particular"⟩,
        fecha_creacion := ⟨739517⟩, funcionario_creador := "F1", estado := .ACTIVA,
        historial_asignaciones :=
          [⟨"F1", 739517, "creacion", none, .CREACION, none⟩],
        domain_events := [.cuentaCreada "ABC123" ⟨739517, 1⟩ "particular" "F1"],
        tipo_proceso_anterior := .NINGUNO,
        proceso_traslado_activo := false, proceso_radicacion_activo := false }
      [(Comando.iniciarTraslado "F1", 739518), (Comando.completarTraslado "F1", 739519),
       (Comando.inactivar "F1" "cierre", 739520)]).coherente ∧
    (Cuenta.ejecutar
      { placa := ⟨"XYZ789"⟩, numero_cuenta := ⟨739517, 2⟩, tipo_servicio := ⟨"particular"⟩,
        fecha_creacion := ⟨739517⟩, funcionario_creador := "F9", estado := .EN_RADICACION,
        historial_asignaciones := [],
        domain_events := [],
        tipo_proceso_anterior := .NINGUNO,
        proceso_traslado_activo := false, proceso_radicacion_activo := true }
      [(Comando.devolverRadicacion "F9" "documentos", 739518)]).coherente := by
  constructor
  · exact cuenta_invariante_coherencia.1 ⟨"ABC123"⟩ ⟨"particular"⟩ "F1" none 739517 _
      [(Comando.iniciarTraslado "F1", 739518), (Comando.completarTraslado "F1", 739519),
       (Comando.inactivar "F1" "cierre", 739520)] (by decide)
  · exact cuenta_invariante_coherencia.2 ⟨"XYZ789"⟩ ⟨739517, 2⟩ ⟨"particular"⟩ .EN_RADICACION
      ⟨739517⟩ "F9" [] .NINGUNO false true _
      [(Comando.devolverRadicacion "F9" "documentos", 739518)] (by decide)

/-- C4: `permite_traslado` and `permite_radicacion` are both true exactly
on NINGUNO and the two DEVUELTO variants; exactly one of the two holds
exactly on the COMPLETADO variants, with TRASLADO_COMPLETADO permitting
only radicacion and RADICACION_COMPLETADA permitting only traslado. -/
theorem tipo_proceso_anterior_matriz (t : TipoProcesoAnterior) :
    ((t.permite_traslado = true ∧ t.permite_radicacion = true) ↔
      (t = .NINGUNO ∨ t = .TRASLADO_DEVUELTO ∨ t = .RADICACION_DEVUELTA)) ∧
    ((t.permite_traslado ≠ t.permite_radicacion) ↔
      (t = .TRASLADO_COMPLETADO ∨ t = .RADICACION_COMPLETADA)) ∧
    (TipoProcesoAnterior.TRASLADO_COMPLETADO.permite_traslado = false ∧
     TipoProcesoAnterior.TRASLADO_COMPLETADO.permite_radicacion = true) ∧
    (TipoProcesoAnterior.RADICACION_COMPLETADA.permite_traslado = true ∧
     TipoProcesoAnterior.RADICACION_COMPLETADA.permite_radicacion = false) := by
  cases t <;> decide

/-- C8: rehydration round-trip.  For any inputs whose state/flag triple
satisfies the coherence invariant (and a creator that survives
normalization), `crear_desde_repositorio` succeeds, reads back the same
estado, flags, tipo_proceso_anterior and historial, and emits no
creation event. -/
theorem crear_desde_repositorio_roundtrip
    (placa : Placa) (num : NumeroCuenta) (ts : TipoServicio) (estado : EstadoCuenta)
    (fc : FechaCreacion) (f : String) (historial : List HistorialAsignacion)
    (tipo : TipoProcesoAnterior) (tras rad : Bool)
    (hf1 : pyUpper (pyStrip f) ≠ "") (hf2 : pyStrip (pyUpper (pyStrip f)) ≠ "")
    (hcoh : coherenteEstado estado tras rad) :
    ∃ c : Cuenta,
      Cuenta.crear_desde_repositorio placa num ts estado fc f historial tipo tras rad = .ok c ∧
      c.estado = estado ∧ c.proceso_traslado_activo = tras ∧
      c.proceso_radicacion_activo = rad ∧ c.tipo_proceso_anterior = tipo ∧
      c.historial_asignaciones = historial ∧ c.domain_events = [] := by
  have hv : Cuenta.validarCoherenciaEstado estado tras rad = .ok () :=
    (validarCoherenciaEstado_ok_iff estado tras rad).mpr hcoh
  refine ⟨{ placa := placa, numero_cuenta := num, tipo_servicio := ts,
            fecha_creacion := fc, funcionario_creador := pyUpper (pyStrip f),
            estado := estado, historial_asignaciones := historial, domain_events := [],
            tipo_proceso_anterior := tipo, proceso_traslado_activo := tras,
            proceso_radicacion_activo := rad },
         ?_, rfl, rfl, rfl, rfl, rfl, rfl⟩
  unfold Cuenta.crear_desde_repositorio
  rw [hv]
  simp [hf1, hf2]

/-- Concrete instantiation of `crear_desde_repositorio_roundtrip` at an
EN_TRASLADO snapshot. -/
theorem crear_desde_repositorio_roundtrip_witness :
    ∃ c : Cuenta,
      Cuenta.crear_desde_repositorio ⟨"ABC123"⟩ ⟨739517, 1⟩ ⟨"particular"⟩ .EN_TRASLADO
        ⟨739500⟩ "f1" [⟨"F1", 739500, "creacion", none, .CREACION, none⟩]
        .NINGUNO true false = .ok c ∧
      c.estado = .EN_TRASLADO ∧ c.proceso_traslado_activo = true ∧
      c.proceso_radicacion_activo = false ∧ c.tipo_proceso_anterior = .NINGUNO ∧
      c.historial_asignaciones = [⟨"F1", 739500, "creacion", none, .CREACION, none⟩] ∧
      c.domain_events = [] :=
  crear_desde_repositorio_roundtrip ⟨"ABC123"⟩ ⟨739517, 1⟩ ⟨"particular"⟩ .EN_TRASLADO
    ⟨739500⟩ "f1" [⟨"F1", 739500, "creacion", none, .CREACION, none⟩] .NINGUNO true false
    (by decide) (by decide) (by decide)

/-! ### C2: what happens when a command raises

The guard (`puede_*` / `tiene_*` / estado) checks run before any
mutation, so a guard rejection leaves the entity untouched.  But the
`devolver_*`, `iniciar_*`, `completar_*`, `inactivar_cuenta` and
`reactivar_cuenta` methods write the flags/estado/tipo fields *before*
building the `HistorialAsignacion` audit record, so a validation error
raised inside that constructor (e.g. a motivo longer than 500
characters after prefixing) escapes with those earlier writes already
applied: the historial and the event buffer are unchanged but the
scalar state is not. -/

/-- An account currently in traslado, used as the concrete C2 input. -/
def cuentaEnTraslado : Cuenta :=
  { placa := ⟨"ABC123"⟩, numero_cuenta := ⟨739517, 1⟩, tipo_servicio := ⟨"particular"⟩,
    fecha_creacion := ⟨739500⟩, funcionario_creador := "F1", estado := .EN_TRASLADO,
    historial_asignaciones := [⟨"F1", 739500, "creacion", none, .CREACION, none⟩],
    domain_events := [], tipo_proceso_anterior := .NINGUNO,
    proceso_traslado_activo := true, proceso_radicacion_activo := false }

/-- A 501-character motivo; prefixed by the audit factory it exceeds the
500-character bound of `HistorialAsignacion`. -/
def motivoLargo : String := ⟨List.replicate 501 'a'⟩

set_option maxRecDepth 20000 in
/-- C2 is false on the code: at `cuentaEnTraslado`,
`devolver_proceso_traslado` with the over-long motivo raises (the
second component is an error) yet the entity is not left unchanged —
its estado, traslado flag and tipo_proceso_anterior have been mutated,
while historial and the event buffer are untouched. -/
theorem devolver_motivo_largo_contraejemplo :
    ((cuentaEnTraslado.devolver_proceso_traslado "F2" motivoLargo 739518).2.isSome = true) ∧
    (cuentaEnTraslado.devolver_proceso_traslado "F2" motivoLargo 739518).1 ≠ cuentaEnTraslado ∧
    (cuentaEnTraslado.devolver_proceso_traslado "F2" motivoLargo 739518).1.estado = .ACTIVA ∧
    (cuentaEnTraslado.devolver_proceso_traslado "F2" motivoLargo 739518).1.tipo_proceso_anterior
        = .TRASLADO_DEVUELTO ∧
    (cuentaEnTraslado.devolver_proceso_traslado "F2" motivoLargo 739518).1.historial_asignaciones
        = cuentaEnTraslado.historial_asignaciones ∧
    (cuentaEnTraslado.devolver_proceso_traslado "F2" motivoLargo 739518).1.domain_events
        = cuentaEnTraslado.domain_events := by
  refine ⟨by decide, ?_, by decide, by decide, by decide, by decide⟩
  intro hh
  have := congrArg Cuenta.estado hh
  simp [cuentaEnTraslado] at this
  revert this
  decide

/-- C2 (amended): a command rejected by its precondition guard leaves
the entity exactly unchanged; but when the guard passes and the
`HistorialAsignacion` construction fails, the command raises with the
flag/estado/tipo writes already applied (historial and events
unchanged).  Both behaviours are stated for every command. -/
theorem comandos_atomicidad_amended (c : Cuenta) (f m n a : String) (o : Option String)
    (t : Fecha) :
    (c.puede_iniciar_traslado = false →
      ((c.iniciar_proceso_traslado f t).1 = c ∧ (c.iniciar_proceso_traslado f t).2.isSome = true)) ∧
    (c.puede_iniciar_radicacion = false →
      ((c.iniciar_proceso_radicacion f t).1 = c ∧ (c.iniciar_proceso_radicacion f t).2.isSome = true)) ∧
    (c.tiene_traslado_activo = false →
      ((c.completar_proceso_traslado f t).1 = c ∧ (c.completar_proceso_traslado f t).2.isSome = true)) ∧
    (c.tiene_radicacion_activa = false →
      ((c.completar_proceso_radicacion f t).1 = c ∧ (c.completar_proceso_radicacion f t).2.isSome = true)) ∧
    (c.tiene_traslado_activo = false →
      ((c.devolver_proceso_traslado f m t).1 = c ∧ (c.devolver_proceso_traslado f m t).2.isSome = true)) ∧
    (c.tiene_radicacion_activa = false →
      ((c.devolver_proceso_radicacion f m t).1 = c ∧ (c.devolver_proceso_radicacion f m t).2.isSome = true)) ∧
    (c.tiene_proceso_activo = true →
      ((c.inactivar_cuenta f m t).1 = c ∧ (c.inactivar_cuenta f m t).2.isSome = true)) ∧
    (c.estado ≠ .INACTIVA →
      ((c.reactivar_cuenta f t).1 = c ∧ (c.reactivar_cuenta f t).2.isSome = true)) ∧
    (∀ e, (c.reasignar_funcionario n a m o t).2 = some e →
      (c.reasignar_funcionario n a m o t).1 = c) ∧
    (∀ e, c.tiene_traslado_activo = true →
      HistorialAsignacion.crear_cambio_proceso f "traslado" "devolver" (some m) t = .error e →
      c.devolver_proceso_traslado f m t =
        ({ c with proceso_traslado_activo := false,
                  tipo_proceso_anterior := .TRASLADO_DEVUELTO,
                  estado := .ACTIVA }, some e)) ∧
    (∀ e, c.tiene_radicacion_activa = true →
      HistorialAsignacion.crear_cambio_proceso f "radicacion" "devolver" (some m) t = .error e →
      c.devolver_proceso_radicacion f m t =
        ({ c with proceso_radicacion_activo := false,
                  tipo_proceso_anterior := .RADICACION_DEVUELTA,
                  estado := .ACTIVA }, some e)) ∧
    (∀ e, c.puede_iniciar_traslado = true →
      HistorialAsignacion.crear_cambio_proceso f "traslado" "inicio" none t = .error e →
      c.iniciar_proceso_traslado f t =
        ({ c with proceso_traslado_activo := true, estado := .EN_TRASLADO }, some e)) ∧
    (∀ e, c.tiene_traslado_activo = true →
      HistorialAsignacion.crear_cambio_proceso f "traslado" "completar" none t = .error e →
      c.completar_proceso_traslado f t =
        ({ c with proceso_traslado_activo := false,
                  tipo_proceso_anterior := .TRASLADO_COMPLETADO,
                  estado := .ACTIVA }, some e)) ∧
    (∀ e, c.tiene_proceso_activo = false →
      HistorialAsignacion.crear_inactivacion f m t = .error e →
      c.inactivar_cuenta f m t = ({ c with estado := .INACTIVA }, some e)) ∧
    (∀ e, c.estado = .INACTIVA →
      HistorialAsignacion.crear_reactivacion f t = .error e →
      c.reactivar_cuenta f t = ({ c with estado := .ACTIVA }, some e)) := by
  refine ⟨?_, ?_, ?_, ?_, ?_, ?_, ?_, ?_, ?_, ?_, ?_, ?_, ?_, ?_, ?_⟩
  · intro hg
    unfold Cuenta.iniciar_proceso_traslado
    simp [hg]
  · intro hg
    unfold Cuenta.iniciar_proceso_radicacion
    simp [hg]
  · intro hg
    unfold Cuenta.completar_proceso_traslado
    simp [hg]
  · intro hg
    unfold Cuenta.completar_proceso_radicacion
    simp [hg]
  · intro hg
    unfold Cuenta.devolver_proceso_traslado
    simp [hg]
  · intro hg
    unfold Cuenta.devolver_proceso_radicacion
    simp [hg]
  · intro hg
    unfold Cuenta.inactivar_cuenta
    simp [hg]
  · intro hg
    unfold Cuenta.reactivar_cuenta
    simp [hg]
  · intro e he
    unfold Cuenta.reasignar_funcionario at he ⊢
    by_cases hu : pyUpper n = c.get_funcionario_actual
    · simp [hu]
    · simp only [hu, if_false] at he ⊢
      cases hcr : HistorialAsignacion.crear_reasignacion_manual n a m o t with
      | error x => simp [hcr]
      | ok x => rw [hcr] at he; simp at he
  · intro e ht hcr
    unfold Cuenta.devolver_proceso_traslado
    simp [ht, hcr]
  · intro e ht hcr
    unfold Cuenta.devolver_proceso_radicacion
    simp [ht, hcr]
  · intro e hp hcr
    unfold Cuenta.iniciar_proceso_traslado
    simp [hp, hcr]
  · intro e ht hcr
    unfold Cuenta.completar_proceso_traslado
    simp [ht, hcr]
  · intro e hp hcr
    unfold Cuenta.inactivar_cuenta
    simp [hp, hcr]
  · intro e hi hcr
    unfold Cuenta.reactivar_cuenta
    simp [hi, hcr]

set_option maxRecDepth 20000 in
/-- Concrete instantiation of `comandos_atomicidad_amended`: the guard
branch at an account with no active traslado, and the partial-mutation
branch at `cuentaEnTraslado` with the 501-character motivo. -/
theorem comandos_atomicidad_amended_witness :
    ((cuentaEnTraslado.completar_proceso_radicacion "F2" 739518).1 = cuentaEnTraslado ∧
      (cuentaEnTraslado.completar_proceso_radicacion "F2" 739518).2.isSome = true) ∧
    cuentaEnTraslado.devolver_proceso_traslado "F2" motivoLargo 739518 =
      ({ cuentaEnTraslado with
          proceso_traslado_activo := false,
          tipo_proceso_anterior := .TRASLADO_DEVUELTO,
          estado := .ACTIVA }, some "El motivo no puede exceder 500 caracteres") := by
  constructor
  · exact (comandos_atomicidad_amended cuentaEnTraslado "F2" "" "" "" none 739518).2.2.2.1
      (by decide)
  · exact (comandos_atomicidad_amended cuentaEnTraslado "F2" motivoLargo "" "" none
      739518).2.2.2.2.2.2.2.2.2.1 "El motivo no puede exceder 500 caracteres"
      (by decide) (by decide)

/-! ### C5: the fresh-account traslado scenario -/

theorem pyUpper_eq_empty_iff (s : String) : pyUpper s = "" ↔ s = "" := by
  constructor
  · intro h
    have hmap : s.data.map pyUpperChar = ([] : List Char) := congrArg String.data h
    have hnil : s.data = [] := by
      cases hs : s.data with
      | nil => rfl
      | cons c cs => rw [hs] at hmap; simp at hmap
    cases s
    exact congrArg String.mk hnil
  · intro h
    rw [h]
    rfl

theorem crear_cambio_proceso_ok (f tipo accion : String) (t : Fecha)
    (hf1 : f ≠ "") (hf2 : pyStrip f ≠ "")
    (hm1 : pyStrip (accion ++ "_" ++ tipo) = accion ++ "_" ++ tipo)
    (hm2 : accion ++ "_" ++ tipo ≠ "")
    (hm3 : (accion ++ "_" ++ tipo).length ≤ 500) :
    HistorialAsignacion.crear_cambio_proceso f tipo accion none t =
      .ok ⟨pyUpper (pyStrip f), t, accion ++ "_" ++ tipo, none,
        (if accion = "inicio" then .INICIO_PROCESO
         else if accion = "completar" then .COMPLETAR_PROCESO
         else if accion = "devolver" then .DEVOLVER_PROCESO
         else .REASIGNACION), none⟩ := by
  have hfe : pyUpper (pyStrip f) ≠ "" := by
    intro hh
    exact hf2 ((pyUpper_eq_empty_iff (pyStrip f)).mp hh)
  have hm3' : ¬ (500 < (accion ++ "_" ++ tipo).length) := Nat.not_lt.mpr hm3
  unfold HistorialAsignacion.crear_cambio_proceso HistorialAsignacion.crear
  simp only [hf1, hfe, hm1, hm2, hm3', if_false, ite_false, ite_true, if_true,
    Option.getD_some, gt_iff_lt, lt_self_iff_false, ne_eq, not_false_eq_true]
  simp [hm1, hm2, hfe, hf1, hm3']

theorem crear_nueva_cuenta_ok_shape (placa : Placa) (ts : TipoServicio) (f : String)
    (cons : Option Int) (today : Fecha) (c : Cuenta)
    (h : Cuenta.crear_nueva_cuenta placa ts f cons today = .ok c) :
    c.estado = .ACTIVA ∧ c.proceso_traslado_activo = false ∧
    c.proceso_radicacion_activo = false ∧ c.tipo_proceso_anterior = .NINGUNO ∧
    c.historial_asignaciones.length = 1 := by
  unfold Cuenta.crear_nueva_cuenta at h
  repeat' split at h
  all_goals cases h
  all_goals simp

/-- C5: on any account freshly produced by `crear_nueva_cuenta`,
`iniciar_proceso_traslado` then `completar_proceso_traslado` (with a
non-blank funcionario) both succeed and leave estado ACTIVA,
tipo_proceso_anterior TRASLADO_COMPLETADO, `puede_iniciar_traslado`
false, `puede_iniciar_radicacion` true and a three-entry historial. -/
theorem escenario_traslado_completo (placa : Placa) (ts : TipoServicio)
    (fc f : String) (cons : Option Int) (t0 t1 t2 : Fecha) (c0 : Cuenta)
    (h0 : Cuenta.crear_nueva_cuenta placa ts fc cons t0 = .ok c0)
    (hf1 : f ≠ "") (hf2 : pyStrip f ≠ "") :
    (c0.iniciar_proceso_traslado f t1).2 = none ∧
    ((c0.iniciar_proceso_traslado f t1).1.completar_proceso_traslado f t2).2 = none ∧
    ((c0.iniciar_proceso_traslado f t1).1.completar_proceso_traslado f t2).1.estado = .ACTIVA ∧
    ((c0.iniciar_proceso_traslado f t1).1.completar_proceso_traslado f t2).1.tipo_proceso_anterior
      = .TRASLADO_COMPLETADO ∧
    ((c0.iniciar_proceso_traslado f t1).1.completar_proceso_traslado f t2).1.puede_iniciar_traslado
      = false ∧
    ((c0.iniciar_proceso_traslado f t1).1.completar_proceso_traslado f t2).1.puede_iniciar_radicacion
      = true ∧
    ((c0.iniciar_proceso_traslado f t1).1.completar_proceso_traslado f t2).1.historial_asignaciones.length
      = 3 := by
  obtain ⟨he, ht, hr, hta, hl⟩ := crear_nueva_cuenta_ok_shape placa ts fc cons t0 c0 h0
  have hp : c0.puede_iniciar_traslado = true := by
    simp [Cuenta.puede_iniciar_traslado, Cuenta.tiene_proceso_activo, Cuenta.esta_inactiva,
      he, ht, hr, hta, TipoProcesoAnterior.permite_traslado]
  have hcp1 : HistorialAsignacion.crear_cambio_proceso f "traslado" "inicio" none t1 =
      .ok ⟨pyUpper (pyStrip f), t1, "inicio" ++ "_" ++ "traslado", none, .INICIO_PROCESO, none⟩ := by
    rw [crear_cambio_proceso_ok f "traslado" "inicio" t1 hf1 hf2 (by decide) (by decide) (by decide)]
    simp
  have hcp2 : HistorialAsignacion.crear_cambio_proceso f "traslado" "completar" none t2 =
      .ok ⟨pyUpper (pyStrip f), t2, "completar" ++ "_" ++ "traslado", none, .COMPLETAR_PROCESO, none⟩ := by
    rw [crear_cambio_proceso_ok f "traslado" "completar" t2 hf1 hf2 (by decide) (by decide) (by decide)]
    simp
  have hini : c0.iniciar_proceso_traslado f t1 =
      ({ c0 with
          proceso_traslado_activo := true, estado := .EN_TRASLADO,
          historial_asignaciones := c0.historial_asignaciones ++
            [⟨pyUpper (pyStrip f), t1, "inicio" ++ "_" ++ "traslado", none, .INICIO_PROCESO, none⟩],
          domain_events := c0.domain_events ++
            [.procesoIniciado c0.placa.valor "traslado" f c0.numero_cuenta] }, none) := by
    unfold Cuenta.iniciar_proceso_traslado
    simp [hp, hcp1]
  rw [hini]
  have hcom : Cuenta.completar_proceso_traslado
      { c0 with
          proceso_traslado_activo := true, estado := .EN_TRASLADO,
          historial_asignaciones := c0.historial_asignaciones ++
            [⟨pyUpper (pyStrip f), t1, "inicio" ++ "_" ++ "traslado", none, .INICIO_PROCESO, none⟩],
          domain_events := c0.domain_events ++
            [.procesoIniciado c0.placa.valor "traslado" f c0.numero_cuenta] } f t2 =
      ({ c0 with
          proceso_traslado_activo := false, tipo_proceso_anterior := .TRASLADO_COMPLETADO,
          estado := .ACTIVA,
          historial_asignaciones := (c0.historial_asignaciones ++
            [⟨pyUpper (pyStrip f), t1, "inicio" ++ "_" ++ "traslado", none, .INICIO_PROCESO, none⟩]) ++
            [⟨pyUpper (pyStrip f), t2, "completar" ++ "_" ++ "traslado", none, .COMPLETAR_PROCESO, none⟩],
          domain_events := (c0.domain_events ++
            [.procesoIniciado c0.placa.valor "traslado" f c0.numero_cuenta]) ++
            [.procesoCompletado c0.placa.valor "traslado" f c0.numero_cuenta "completado" none] }, none) := by
    unfold Cuenta.completar_proceso_traslado
    simp [Cuenta.tiene_traslado_activo, hcp2]
  rw [hcom]
  refine ⟨rfl, rfl, rfl, rfl, ?_, ?_, ?_⟩
  · simp [Cuenta.puede_iniciar_traslado, Cuenta.tiene_proceso_activo, Cuenta.esta_inactiva,
      hr, TipoProcesoAnterior.permite_traslado]
  · simp [Cuenta.puede_iniciar_radicacion, Cuenta.tiene_proceso_activo, Cuenta.esta_inactiva,
      hr, TipoProcesoAnterior.permite_radicacion]
  · simp [hl]

/-- The Scenario A account: the value `crear_nueva_cuenta` produces for
plate "ABC123", servicio "particular", creator "F1" on day 739517. -/
def cuentaEscenarioA : Cuenta :=
  { placa := ⟨"ABC123"⟩, numero_cuenta := ⟨739517, 1⟩, tipo_servicio := ⟨"particular"⟩,
    fecha_creacion := ⟨739517⟩, funcionario_creador := "F1", estado := .ACTIVA,
    historial_asignaciones := [⟨"F1", 739517, "creacion", none, .CREACION, none⟩],
    domain_events := [.cuentaCreada "ABC123" ⟨739517, 1⟩ "particular" "F1"],
    tipo_proceso_anterior := .NINGUNO,
    proceso_traslado_activo := false, proceso_radicacion_activo := false }

/-- Concrete instantiation of `escenario_traslado_completo`: the account
of Scenario A ("ABC123", PARTICULAR, creator "F1") and funcionario "F1". -/
theorem escenario_traslado_completo_witness :
    ((cuentaEscenarioA.iniciar_proceso_traslado "F1" 739518).2 = none) ∧
    ((cuentaEscenarioA.iniciar_proceso_traslado "F1" 739518).1.completar_proceso_traslado
        "F1" 739519).2 = none ∧
    ((cuentaEscenarioA.iniciar_proceso_traslado "F1" 739518).1.completar_proceso_traslado
        "F1" 739519).1.estado = .ACTIVA ∧
    ((cuentaEscenarioA.iniciar_proceso_traslado "F1" 739518).1.completar_proceso_traslado
        "F1" 739519).1.tipo_proceso_anterior = .TRASLADO_COMPLETADO ∧
    ((cuentaEscenarioA.iniciar_proceso_traslado "F1" 739518).1.completar_proceso_traslado
        "F1" 739519).1.puede_iniciar_traslado = false ∧
    ((cuentaEscenarioA.iniciar_proceso_traslado "F1" 739518).1.completar_proceso_traslado
        "F1" 739519).1.puede_iniciar_radicacion = true ∧
    ((cuentaEscenarioA.iniciar_proceso_traslado "F1" 739518).1.completar_proceso_traslado
        "F1" 739519).1.historial_asignaciones.length = 3 :=
  escenario_traslado_completo ⟨"ABC123"⟩ ⟨"particular"⟩ "F1" "F1" none 739517 739518 739519
    cuentaEscenarioA (by decide) (by decide) (by decide)

/-! ### `Observacion` (value_objects/observacion.py)

`_normalizar_texto` runs four steps: replace a control-character class
by spaces, split into lines and collapse space runs / strip each line,
re-join, collapse blank-line runs (`\n\s*\n` → `\n\n`, greedy, applied
left to right) and finally `strip()` the whole text.  Because every
line has just been stripped, whitespace adjacent to a newline consists
of newlines only, so the greedy blank-collapse followed by the final
strip is equivalent, on the list of stripped lines, to dropping the
leading and trailing runs of empty lines and collapsing every interior
run of empty lines to a single one; the embedding uses that line-level
form. -/

/-- The control-character class replaced by spaces
(`[\x00-\x08\x0B\x0C\x0E-\x1F\x7F]`). -/
def esControlReemplazable (c : Char) : Bool :=
  c.toNat ≤ 8 || c.toNat = 11 || c.toNat = 12 ||
  (14 ≤ c.toNat && c.toNat ≤ 31) || c.toNat = 127

/-- Replace control characters by spaces. -/
def quitarControles (l : List Char) : List Char :=
  l.map (fun c => if esControlReemplazable c then ' ' else c)

/-- Python `str.split("\n")` on character lists (never returns `[]`). -/
def dividirLineas : List Char → List (List Char)
  | [] => [[]]
  | c :: r =>
    if c = '\n' then [] :: dividirLineas r
    else
      match dividirLineas r with
      | [] => [[c]]
      | h :: t => (c :: h) :: t

/-- Collapse every run of spaces to a single space (`re.sub(r' {2,}', ' ')`
collapses runs of two or more and leaves single spaces, which is the
same thing).  The flag records whether the previous kept character was a
space. -/
def colapsarEspaciosAux : Bool → List Char → List Char
  | _, [] => []
  | prev, c :: r =>
    if c = ' ' then
      if prev then colapsarEspaciosAux true r else ' ' :: colapsarEspaciosAux true r
    else c :: colapsarEspaciosAux false r

/-- One line of `_normalizar_texto`: collapse space runs, then strip. -/
def normalizarLinea (l : List Char) : List Char :=
  pyStripL (colapsarEspaciosAux false l)

/-- Collapse every run of empty lines to a single empty line.  The flag
records whether the previous kept line was empty. -/
def colapsarVaciasAux : Bool → List (List Char) → List (List Char)
  | _, [] => []
  | prev, l :: r =>
    if l = [] then
      if prev then colapsarVaciasAux true r else [] :: colapsarVaciasAux true r
    else l :: colapsarVaciasAux false r

/-- Drop the trailing run of empty lines. -/
def quitarVaciasFinales (ls : List (List Char)) : List (List Char) :=
  (ls.reverse.dropWhile (· = [])).reverse

/-- Python `"\n".join` on character-list lines. -/
def unirLineas : List (List Char) → List Char
  | [] => []
  | [x] => x
  | x :: y :: r => x ++ '\n' :: unirLineas (y :: r)

/-- `Observacion._normalizar_texto` (see the section comment for the
equivalence argument behind the line-level blank handling). -/
def normalizarTexto (l : List Char) : List Char :=
  if pyStripL l = [] then [] else
  unirLineas
    (colapsarVaciasAux false
      (quitarVaciasFinales
        ((((dividirLineas (quitarControles l)).map normalizarLinea).dropWhile (· = [])))))

/-- The character whitelist of `_contiene_solo_caracteres_permitidos`.
observacion.py is stored with a double-encoded (mojibake) character
class, so the class the running program compiles does not contain the
intended accented letters and emojis but their mojibake expansions;
these ranges are exactly the code points accepted by the compiled
regex. -/
def permitidoChar (c : Char) : Bool :=
  let n := c.toNat
  (9 ≤ n && n ≤ 13) || (28 ≤ n && n ≤ 91) || (93 ≤ n && n ≤ 122) || n = 124 || n = 126 ||
  n = 133 || n = 160 || n = 165 || (168 ≤ n && n ≤ 170) || n = 172 || n = 176 || n = 177 ||
  n = 180 || n = 182 || n = 186 || n = 196 || n = 197 || n = 199 || n = 212 || n = 214 ||
  n = 226 || n = 229 || (231 ≤ n && n ≤ 233) || n = 235 || n = 236 || n = 238 || n = 241 ||
  n = 244 || n = 246 || n = 248 || n = 250 || n = 252 || n = 5760 ||
  (8192 ≤ n && n ≤ 8202) || n = 8218 || n = 8224 || (8232 ≤ n && n ≤ 8233) || n = 8239 ||
  n = 8287 || n = 8719 || n = 8721 || n = 8730 || n = 8734 || n = 8747 || n = 8800 ||
  n = 8805 || n = 12288 || n = 63743

/-- `_contiene_solo_caracteres_permitidos` (full-match of `^[...]*$`). -/
def contieneSoloCaracteresPermitidos (l : List Char) : Bool :=
  l.all permitidoChar

/-- Python `\w` on the character sets reachable here: ASCII
alphanumerics, underscore and the Latin-1 letters. -/
def esPalabraChar (c : Char) : Bool :=
  let n := c.toNat
  (48 ≤ n && n ≤ 57) || (65 ≤ n && n ≤ 90) || (97 ≤ n && n ≤ 122) || n = 95 ||
  (192 ≤ n && n ≤ 255 && n ≠ 215 && n ≠ 247)

/-- Run a head-anchored matcher at every position (`re.search`). -/
def existeEn (p : List Char → Bool) : List Char → Bool
  | [] => p []
  | c :: r => p (c :: r) || existeEn p r

/-- `<script[^>]*>` at the head. -/
def patronScriptAbre (l : List Char) : Bool :=
  "<script".data.isPrefixOf l && ((l.drop 7).any (· = '>'))

/-- `on\w+\s*=\s*["\']` at the head. -/
def patronOnAtributo (l : List Char) : Bool :=
  match l with
  | 'o' :: 'n' :: r =>
    (r.takeWhile esPalabraChar ≠ []) &&
    (match (r.dropWhile esPalabraChar).dropWhile pyWs with
     | '=' :: r2 =>
       (match r2.dropWhile pyWs with
        | q :: _ => q.toNat = 34 || q.toNat = 39
        | [] => false)
     | _ => false)
  | _ => false

/-- `eval\s*\(` at the head. -/
def patronEval (l : List Char) : Bool :=
  "eval".data.isPrefixOf l &&
  (match (l.drop 4).dropWhile pyWs with
   | '(' :: _ => true
   | _ => false)

/-- `window\.location\s*=` at the head. -/
def patronWindowLocation (l : List Char) : Bool :=
  "window.location".data.isPrefixOf l &&
  (match (l.drop 15).dropWhile pyWs with
   | '=' :: _ => true
   | _ => false)

/-- `_contiene_contenido_sospechoso`: the seven patterns searched over
the lowercased text (an empty text is never suspicious). -/
def contieneContenidoSospechoso (l : List Char) : Bool :=
  if l = [] then false
  else
    let m := l.map pyLowerChar
    existeEn patronScriptAbre m ||
    existeEn (fun s => "</script>".data.isPrefixOf s) m ||
    existeEn (fun s => "javascript:".data.isPrefixOf s) m ||
    existeEn patronOnAtributo m ||
    existeEn patronEval m ||
    existeEn (fun s => "document.write".data.isPrefixOf s) m ||
    existeEn patronWindowLocation m

/-- `Observacion` value object: stores the normalized text. -/
structure Observacion where
  valor : String
deriving DecidableEq, Repr

namespace Observacion

/-- `Observacion.__post_init__`: normalize, then validate length,
whitelist and suspicious content (error messages carry the mojibake of
the stored source file). -/
def crearE (valor : String) : Except String Observacion :=
  let v := normalizarTexto valor.data
  if v.length > 1000 then
    .error ("La observaci√≥n no puede exceder 1000 caracteres. Actual: " ++ toString v.length)
  else if v ≠ [] && !contieneSoloCaracteresPermitidos v then
    .error "La observaci√≥n contiene caracteres no permitidos"
  else if contieneContenidoSospechoso v then
    .error "La observaci√≥n contiene contenido no permitido (HTML, scripts, etc.)"
  else
    .ok ⟨v.asString⟩

/-- `Observacion.vacia`. -/
def vacia : Observacion := ⟨""⟩

/-- `Observacion.esta_vacia` (`not self.valor or not self.valor.strip()`). -/
def esta_vacia (o : Observacion) : Bool :=
  o.valor = "" || pyStrip o.valor = ""

/-- `Observacion.agregar_timestamp_automatico`; `ts` is the
`datetime.now().strftime("%d/%m/%Y %H:%M")` wall-clock string. -/
def agregar_timestamp_automatico (o : Observacion) (funcionario ts : String) :
    Except String Observacion :=
  if pyStrip funcionario = "" then
    .error "El funcionario no puede estar vac√≠o"
  else if o.esta_vacia then
    crearE ("[" ++ ts ++ " - " ++ funcionario ++ "] Sin observaciones adicionales.")
  else
    crearE ("[" ++ ts ++ " - " ++ funcionario ++ "] " ++ o.valor)

/-- `Observacion.crear_desde_texto`. -/
def crear_desde_texto (texto : String) : Except String Observacion :=
  crearE texto

/-- `Observacion.crear_con_timestamp` (`cls(texto) if texto else
cls.vacia()`, then the timestamp wrapper). -/
def crear_con_timestamp (texto funcionario ts : String) : Except String Observacion :=
  match (if texto = "" then .ok vacia else crearE texto) with
  | .error e => .error e
  | .ok base => base.agregar_timestamp_automatico funcionario ts

/-- Python `separador.join` over the non-empty values. -/
def unirConSeparador : List String → String
  | [] => ""
  | [x] => x
  | x :: y :: r => x ++ "\n---\n" ++ unirConSeparador (y :: r)

/-- `Observacion.combinar_observaciones` with the default separator. -/
def combinar_observaciones (observaciones : List Observacion) : Except String Observacion :=
  match observaciones.filter (fun o => !o.esta_vacia) with
  | [] => .ok vacia
  | v :: vs => crearE (unirConSeparador ((v :: vs).map valor))

end Observacion

/-! ### Traslado / Radicacion state enums -/

/-- `EstadoTraslado` (estado_traslado.py). -/
inductive EstadoTraslado
  | ENVIADO_ORGANISMO_DESTINO
  | REVISADO
  | CON_NOVEDADES
  | TRASLADADO
  | DEVUELTO
deriving DecidableEq, Repr

namespace EstadoTraslado

/-- `EstadoTraslado._get_transiciones_permitidas`. -/
def transicionesPermitidas : EstadoTraslado → List EstadoTraslado
  | ENVIADO_ORGANISMO_DESTINO => [REVISADO]
  | REVISADO => [TRASLADADO, CON_NOVEDADES]
  | CON_NOVEDADES => [REVISADO]
  | TRASLADADO => []
  | DEVUELTO => []

/-- `EstadoTraslado.puede_transicionar_a`. -/
def puede_transicionar_a (s nuevo : EstadoTraslado) (es_admin : Bool) : Bool :=
  if es_admin && nuevo = DEVUELTO then true
  else (transicionesPermitidas s).contains nuevo

/-- `EstadoTraslado.es_estado_final`. -/
def es_estado_final (s : EstadoTraslado) : Bool :=
  [TRASLADADO, DEVUELTO].contains s

/-- The `.value` string of each `EstadoTraslado` member. -/
def value : EstadoTraslado → String
  | ENVIADO_ORGANISMO_DESTINO => "enviado_organismo_destino"
  | REVISADO => "revisado"
  | CON_NOVEDADES => "con_novedades"
  | TRASLADADO => "trasladado"
  | DEVUELTO => "devuelto"

end EstadoTraslado

/-- `EstadoRadicacion` (estado_radicacion.py). -/
inductive EstadoRadicacion
  | PENDIENTE_RADICAR
  | RECIBIDO
  | REVISADO
  | CON_NOVEDADES
  | RADICADO
  | DEVUELTO
deriving DecidableEq, Repr

namespace EstadoRadicacion

/-- `EstadoRadicacion._get_transiciones_permitidas`. -/
def transicionesPermitidas : EstadoRadicacion → List EstadoRadicacion
  | PENDIENTE_RADICAR => [RECIBIDO]
  | RECIBIDO => [REVISADO]
  | REVISADO => [RADICADO, CON_NOVEDADES]
  | CON_NOVEDADES => [REVISADO]
  | RADICADO => []
  | DEVUELTO => []

/-- `EstadoRadicacion.puede_transicionar_a`. -/
def puede_transicionar_a (s nuevo : EstadoRadicacion) (es_admin : Bool) : Bool :=
  if es_admin && nuevo = DEVUELTO then true
  else (transicionesPermitidas s).contains nuevo

/-- `EstadoRadicacion.es_estado_final`. -/
def es_estado_final (s : EstadoRadicacion) : Bool :=
  [RADICADO, DEVUELTO].contains s

/-- The `.value` string of each `EstadoRadicacion` member. -/
def value : EstadoRadicacion → String
  | PENDIENTE_RADICAR => "pendiente_radicar"
  | RECIBIDO => "recibido"
  | REVISADO => "revisado"
  | CON_NOVEDADES => "con_novedades"
  | RADICADO => "radicado"
  | DEVUELTO => "devuelto"

end EstadoRadicacion

/-! ### Supporting value objects for the process entities -/

/-- `Ubicacion` value object; only `codigo` (normalized in its own
`__post_init__`) feeds the entity commands, through
`get_nombre_corto`. -/
structure Ubicacion where
  codigo : String
deriving DecidableEq, Repr

/-- Python `str.title()` restricted to the letter set used here: the
first letter of each letter run is uppercased, the rest lowercased. -/
def pyTitleAux : Bool → List Char → List Char
  | _, [] => []
  | prev, c :: r =>
    if esPalabraChar c && c.toNat ≠ 95 && !(48 ≤ c.toNat && c.toNat ≤ 57) then
      (if prev then pyLowerChar c else pyUpperChar c) :: pyTitleAux true r
    else c :: pyTitleAux false r

/-- `Ubicacion.get_nombre_corto`: `codigo.replace("_", " ").title()`. -/
def Ubicacion.get_nombre_corto (u : Ubicacion) : String :=
  (pyTitleAux false (u.codigo.data.map (fun c => if c = '_' then ' ' else c))).asString

/-- `FechaTramite` value object (its own range validation is not touched
by any claim; entity-level date checks are). -/
structure FechaTramite where
  fecha : Fecha
deriving DecidableEq, Repr

/-- `FechaVencimiento` value object. -/
structure FechaVencimiento where
  fecha : Fecha
deriving DecidableEq, Repr

/-! ### The `Traslado` entity (entities/traslado.py)

Commands return the post-call state plus an optional raised message,
like `Cuenta`.  `today` models `date.today()` and `ts` the
`datetime.now().strftime("%d/%m/%Y %H:%M")` wall-clock string used by
the observation factories.  No `Traslado` command emits a domain event;
the buffer only matters for `get_domain_events`. -/

structure Traslado where
  placa : Placa
  organismo_destino : Ubicacion
  fecha_tramite : FechaTramite
  fecha_vencimiento : FechaVencimiento
  funcionario_envia : String
  estado : EstadoTraslado
  observaciones : Observacion
  funcionario_actual : Option String
  fecha_ultima_actualizacion : Option Fecha
  domain_events : List DomainEvent
deriving DecidableEq, Repr

namespace Traslado

/-- `Traslado.get_domain_events`. -/
def get_domain_events (t : Traslado) : List DomainEvent × Traslado :=
  (t.domain_events, { t with domain_events := [] })

/-- `Traslado.esta_en_estado_final`. -/
def esta_en_estado_final (t : Traslado) : Bool := t.estado.es_estado_final

/-- `Traslado.puede_pasar_a_revision`. -/
def puede_pasar_a_revision (t : Traslado) : Bool :=
  t.estado = .ENVIADO_ORGANISMO_DESTINO

/-- `Traslado.puede_completar_traslado`. -/
def puede_completar_traslado (t : Traslado) : Bool := t.estado = .REVISADO

/-- `Traslado.puede_reportar_novedad`. -/
def puede_reportar_novedad (t : Traslado) : Bool := t.estado = .REVISADO

/-- `Traslado.puede_resolver_novedad`. -/
def puede_resolver_novedad (t : Traslado) : Bool := t.estado = .CON_NOVEDADES

/-- `Traslado.puede_ser_devuelto`. -/
def puede_ser_devuelto (t : Traslado) (es_admin : Bool) : Bool :=
  if es_admin then !t.esta_en_estado_final
  else t.estado.puede_transicionar_a .DEVUELTO es_admin

/-- `Traslado.marcar_como_revisado`: guard, then estado, funcionario and
date writes — `observaciones` is not touched. -/
def marcar_como_revisado (t : Traslado) (funcionario_id : String) (today : Fecha) :
    Traslado × Option String :=
  if !t.puede_pasar_a_revision then
    (t, some ("No se puede pasar a revisión desde estado: " ++ t.estado.value))
  else
    ({ t with estado := .REVISADO,
              funcionario_actual := some (pyUpper (pyStrip funcionario_id)),
              fecha_ultima_actualizacion := some today }, none)

/-- `Traslado.completar_traslado`: estado/funcionario/date writes, then
(only when final observations are supplied and non-empty) observaciones
are rebuilt as a timestamped copy of the old text plus a COMPLETADO
line. -/
def completar_traslado (t : Traslado) (funcionario_id : String)
    (observaciones_finales : Option String) (today : Fecha) (ts : String) :
    Traslado × Option String :=
  if !t.puede_completar_traslado then
    (t, some ("No se puede completar traslado desde estado: " ++ t.estado.value))
  else
    let t1 : Traslado :=
      { t with estado := .TRASLADADO,
               funcionario_actual := some (pyUpper (pyStrip funcionario_id)),
               fecha_ultima_actualizacion := some today }
    match observaciones_finales with
    | none => (t1, none)
    | some finales =>
      if finales = "" then (t1, none)
      else
        match t1.observaciones.agregar_timestamp_automatico funcionario_id ts with
        | .error e => (t1, some e)
        | .ok obsTs =>
          match Observacion.crear_desde_texto (obsTs.valor ++ "\nCOMPLETADO: " ++ finales) with
          | .error e => (t1, some e)
          | .ok nueva => ({ t1 with observaciones := nueva }, none)

/-- `Traslado.reportar_novedad`. -/
def reportar_novedad (t : Traslado) (funcionario_id descripcion_novedad : String)
    (today : Fecha) (ts : String) : Traslado × Option String :=
  if !t.puede_reportar_novedad then
    (t, some ("No se puede reportar novedad desde estado: " ++ t.estado.value))
  else
    let t1 : Traslado :=
      { t with estado := .CON_NOVEDADES,
               funcionario_actual := some (pyUpper (pyStrip funcionario_id)),
               fecha_ultima_actualizacion := some today }
    match Observacion.crear_con_timestamp
        ("NOVEDAD REPORTADA: " ++ descripcion_novedad) funcionario_id ts with
    | .error e => (t1, some e)
    | .ok obs =>
      match Observacion.combinar_observaciones [t1.observaciones, obs] with
      | .error e => (t1, some e)
      | .ok nueva => ({ t1 with observaciones := nueva }, none)

/-- `Traslado.resolver_novedad`. -/
def resolver_novedad (t : Traslado) (funcionario_id descripcion_resolucion : String)
    (today : Fecha) (ts : String) : Traslado × Option String :=
  if !t.puede_resolver_novedad then
    (t, some ("No se puede resolver novedad desde estado: " ++ t.estado.value))
  else
    let t1 : Traslado :=
      { t with estado := .REVISADO,
               funcionario_actual := some (pyUpper (pyStrip funcionario_id)),
               fecha_ultima_actualizacion := some today }
    match Observacion.crear_con_timestamp
        ("NOVEDAD RESUELTA: " ++ descripcion_resolucion) funcionario_id ts with
    | .error e => (t1, some e)
    | .ok obs =>
      match Observacion.combinar_observaciones [t1.observaciones, obs] with
      | .error e => (t1, some e)
      | .ok nueva => ({ t1 with observaciones := nueva }, none)

/-- `Traslado.devolver_traslado`. -/
def devolver_traslado (t : Traslado) (funcionario_id motivo_devolucion : String)
    (es_admin : Bool) (today : Fecha) (ts : String) : Traslado × Option String :=
  if !t.puede_ser_devuelto es_admin then
    (t, some ("No se puede devolver traslado desde estado: " ++ t.estado.value))
  else
    let t1 : Traslado :=
      { t with estado := .DEVUELTO,
               funcionario_actual := some (pyUpper (pyStrip funcionario_id)),
               fecha_ultima_actualizacion := some today }
    match Observacion.crear_con_timestamp
        ("TRASLADO DEVUELTO: " ++ motivo_devolucion) funcionario_id ts with
    | .error e => (t1, some e)
    | .ok obs =>
      match Observacion.combinar_observaciones [t1.observaciones, obs] with
      | .error e => (t1, some e)
      | .ok nueva => ({ t1 with observaciones := nueva }, none)

/-- `Traslado.actualizar_observaciones`. -/
def actualizar_observaciones (t : Traslado) (funcionario_id nuevas : String)
    (today : Fecha) (ts : String) : Traslado × Option String :=
  if t.esta_en_estado_final then
    (t, some "No se pueden actualizar observaciones en estado final")
  else
    match Observacion.crear_con_timestamp nuevas funcionario_id ts with
    | .error e => (t, some e)
    | .ok obs =>
      match Observacion.combinar_observaciones [t.observaciones, obs] with
      | .error e => (t, some e)
      | .ok nueva =>
        ({ t with observaciones := nueva,
                  fecha_ultima_actualizacion := some today }, none)

end Traslado

/-! ### The `Radicacion` entity (entities/radicacion.py) -/

structure Radicacion where
  placa : Placa
  organismo_origen : Ubicacion
  fecha_tramite : FechaTramite
  fecha_vencimiento : FechaVencimiento
  funcionario_recibe : String
  estado : EstadoRadicacion
  observaciones : Observacion
  funcionario_actual : Option String
  fecha_ultima_actualizacion : Option Fecha
  domain_events : List DomainEvent
  fue_recibida_flag : Bool
deriving DecidableEq, Repr

namespace Radicacion

/-- `Radicacion.get_domain_events`. -/
def get_domain_events (r : Radicacion) : List DomainEvent × Radicacion :=
  (r.domain_events, { r with domain_events := [] })

/-- `Radicacion.fue_recibida` (reads the private `_fue_recibida`). -/
def fue_recibida (r : Radicacion) : Bool := r.fue_recibida_flag

/-- `Radicacion.esta_en_estado_final`. -/
def esta_en_estado_final (r : Radicacion) : Bool := r.estado.es_estado_final

/-- `Radicacion.puede_ser_recibida`. -/
def puede_ser_recibida (r : Radicacion) : Bool := r.estado = .PENDIENTE_RADICAR

/-- `Radicacion.puede_pasar_a_revision`. -/
def puede_pasar_a_revision (r : Radicacion) : Bool := r.estado = .RECIBIDO

/-- `Radicacion.puede_completar_radicacion`. -/
def puede_completar_radicacion (r : Radicacion) : Bool := r.estado = .REVISADO

/-- `Radicacion.puede_reportar_novedad`. -/
def puede_reportar_novedad (r : Radicacion) : Bool := r.estado = .REVISADO

/-- `Radicacion.puede_resolver_novedad`. -/
def puede_resolver_novedad (r : Radicacion) : Bool := r.estado = .CON_NOVEDADES

/-- `Radicacion.puede_ser_devuelta`. -/
def puede_ser_devuelta (r : Radicacion) (es_admin : Bool) : Bool :=
  if es_admin then !r.esta_en_estado_final
  else r.estado.puede_transicionar_a .DEVUELTO es_admin

/-- `Radicacion.marcar_como_recibida`: estado, funcionario, date and the
private `_fue_recibida` flag, then a reception entry appended to the
observations. -/
def marcar_como_recibida (r : Radicacion) (funcionario_id : String)
    (today : Fecha) (ts : String) : Radicacion × Option String :=
  if !r.puede_ser_recibida then
    (r, some ("No se puede recibir desde estado: " ++ r.estado.value))
  else
    let r1 : Radicacion :=
      { r with estado := .RECIBIDO,
               funcionario_actual := some (pyUpper (pyStrip funcionario_id)),
               fecha_ultima_actualizacion := some today,
               fue_recibida_flag := true }
    match Observacion.crear_con_timestamp
        ("Radicación recibida del " ++ r.organismo_origen.get_nombre_corto)
        funcionario_id ts with
    | .error e => (r1, some e)
    | .ok obs =>
      match Observacion.combinar_observaciones [r1.observaciones, obs] with
      | .error e => (r1, some e)
      | .ok nueva => ({ r1 with observaciones := nueva }, none)

/-- `Radicacion.marcar_como_revisada`: guard, then estado, funcionario
and date writes — `observaciones` is not touched. -/
def marcar_como_revisada (r : Radicacion) (funcionario_id : String) (today : Fecha) :
    Radicacion × Option String :=
  if !r.puede_pasar_a_revision then
    (r, some ("No se puede pasar a revisión desde estado: " ++ r.estado.value))
  else
    ({ r with estado := .REVISADO,
              funcionario_actual := some (pyUpper (pyStrip funcionario_id)),
              fecha_ultima_actualizacion := some today }, none)

/-- `Radicacion.completar_radicacion`. -/
def completar_radicacion (r : Radicacion) (funcionario_id : String)
    (observaciones_finales : Option String) (today : Fecha) (ts : String) :
    Radicacion × Option String :=
  if !r.puede_completar_radicacion then
    (r, some ("No se puede completar radicación desde estado: " ++ r.estado.value))
  else
    let r1 : Radicacion :=
      { r with estado := .RADICADO,
               funcionario_actual := some (pyUpper (pyStrip funcionario_id)),
               fecha_ultima_actualizacion := some today }
    match observaciones_finales with
    | none => (r1, none)
    | some finales =>
      if finales = "" then (r1, none)
      else
        match r1.observaciones.agregar_timestamp_automatico funcionario_id ts with
        | .error e => (r1, some e)
        | .ok obsTs =>
          match Observacion.crear_desde_texto (obsTs.valor ++ "\nCOMPLETADA: " ++ finales) with
          | .error e => (r1, some e)
          | .ok nueva => ({ r1 with observaciones := nueva }, none)

/-- `Radicacion.reportar_novedad`. -/
def reportar_novedad (r : Radicacion) (funcionario_id descripcion_novedad : String)
    (today : Fecha) (ts : String) : Radicacion × Option String :=
  if !r.puede_reportar_novedad then
    (r, some ("No se puede reportar novedad desde estado: " ++ r.estado.value))
  else
    let r1 : Radicacion :=
      { r with estado := .CON_NOVEDADES,
               funcionario_actual := some (pyUpper (pyStrip funcionario_id)),
               fecha_ultima_actualizacion := some today }
    match Observacion.crear_con_timestamp
        ("NOVEDAD REPORTADA: " ++ descripcion_novedad) funcionario_id ts with
    | .error e => (r1, some e)
    | .ok obs =>
      match Observacion.combinar_observaciones [r1.observaciones, obs] with
      | .error e => (r1, some e)
      | .ok nueva => ({ r1 with observaciones := nueva }, none)

/-- `Radicacion.resolver_novedad`. -/
def resolver_novedad (r : Radicacion) (funcionario_id descripcion_resolucion : String)
    (today : Fecha) (ts : String) : Radicacion × Option String :=
  if !r.puede_resolver_novedad then
    (r, some ("No se puede resolver novedad desde estado: " ++ r.estado.value))
  else
    let r1 : Radicacion :=
      { r with estado := .REVISADO,
               funcionario_actual := some (pyUpper (pyStrip funcionario_id)),
               fecha_ultima_actualizacion := some today }
    match Observacion.crear_con_timestamp
        ("NOVEDAD RESUELTA: " ++ descripcion_resolucion) funcionario_id ts with
    | .error e => (r1, some e)
    | .ok obs =>
      match Observacion.combinar_observaciones [r1.observaciones, obs] with
      | .error e => (r1, some e)
      | .ok nueva => ({ r1 with observaciones := nueva }, none)

/-- `Radicacion.devolver_radicacion`. -/
def devolver_radicacion (r : Radicacion) (funcionario_id motivo_devolucion : String)
    (es_admin : Bool) (today : Fecha) (ts : String) : Radicacion × Option String :=
  if !r.puede_ser_devuelta es_admin then
    (r, some ("No se puede devolver radicación desde estado: " ++ r.estado.value))
  else
    let r1 : Radicacion :=
      { r with estado := .DEVUELTO,
               funcionario_actual := some (pyUpper (pyStrip funcionario_id)),
               fecha_ultima_actualizacion := some today }
    match Observacion.crear_con_timestamp
        ("RADICACIÓN DEVUELTA: " ++ motivo_devolucion) funcionario_id ts with
    | .error e => (r1, some e)
    | .ok obs =>
      match Observacion.combinar_observaciones [r1.observaciones, obs] with
      | .error e => (r1, some e)
      | .ok nueva => ({ r1 with observaciones := nueva }, none)

/-- `Radicacion.crear_desde_repositorio`: rehydrates every persisted
field, resets the event buffer and re-validates; the Python factory
never assigns `_fue_recibida`, so the instance falls back to the
dataclass class-attribute default `False` no matter which estado was
stored. -/
def crear_desde_repositorio (placa : Placa) (organismo_origen : Ubicacion)
    (fecha_tramite : FechaTramite) (fecha_vencimiento : FechaVencimiento)
    (funcionario_recibe : String) (estado : EstadoRadicacion)
    (observaciones : Observacion) (funcionario_actual : Option String)
    (fecha_ultima_actualizacion : Option Fecha) : Except String Radicacion :=
  if pyUpper (pyStrip funcionario_recibe) = "" ||
      pyStrip (pyUpper (pyStrip funcionario_recibe)) = "" then
    .error "El funcionario que recibe no puede estar vacío"
  else if fecha_vencimiento.fecha ≤ fecha_tramite.fecha then
    .error "La fecha de vencimiento debe ser posterior a la fecha de trámite"
  else
    .ok { placa := placa
          organismo_origen := organismo_origen
          fecha_tramite := fecha_tramite
          fecha_vencimiento := fecha_vencimiento
          funcionario_recibe := pyUpper (pyStrip funcionario_recibe)
          estado := estado
          observaciones := observaciones
          funcionario_actual := funcionario_actual
          fecha_ultima_actualizacion := fecha_ultima_actualizacion
          domain_events := []
          fue_recibida_flag := false }

end Radicacion

/-! ### C3: admin devolución versus the normal transition table -/

/-- C3: for every `Traslado` and `Radicacion` state: the admin check
accepts exactly the non-terminal states; the non-admin check accepts no
state at all (no table entry reaches DEVUELTO); devolver with
`es_admin=False` therefore raises, unchanged, from every non-terminal
state; devolver with `es_admin=True` raises from terminal states, and
from non-terminal states succeeds (observation pipeline given as
equations) setting estado to DEVUELTO, while any success implies the
state was non-terminal. -/
theorem devolver_admin_vs_tabla (t : Traslado) (r : Radicacion) (f m : String)
    (today : Fecha) (ts : String) :
    (t.puede_ser_devuelto true = !t.estado.es_estado_final) ∧
    (t.puede_ser_devuelto false = false) ∧
    (t.estado.es_estado_final = false →
      ((t.devolver_traslado f m false today ts).1 = t ∧
       (t.devolver_traslado f m false today ts).2.isSome = true)) ∧
    (t.estado.es_estado_final = true →
      ((t.devolver_traslado f m true today ts).1 = t ∧
       (t.devolver_traslado f m true today ts).2.isSome = true)) ∧
    (∀ obs nueva, t.estado.es_estado_final = false →
      Observacion.crear_con_timestamp ("TRASLADO DEVUELTO: " ++ m) f ts = .ok obs →
      Observacion.combinar_observaciones [t.observaciones, obs] = .ok nueva →
      t.devolver_traslado f m true today ts =
        ({ t with estado := .DEVUELTO,
                  funcionario_actual := some (pyUpper (pyStrip f)),
                  fecha_ultima_actualizacion := some today,
                  observaciones := nueva }, none)) ∧
    ((t.devolver_traslado f m true today ts).2 = none → t.estado.es_estado_final = false) ∧
    (r.puede_ser_devuelta true = !r.estado.es_estado_final) ∧
    (r.puede_ser_devuelta false = false) ∧
    (r.estado.es_estado_final = false →
      ((r.devolver_radicacion f m false today ts).1 = r ∧
       (r.devolver_radicacion f m false today ts).2.isSome = true)) ∧
    (r.estado.es_estado_final = true →
      ((r.devolver_radicacion f m true today ts).1 = r ∧
       (r.devolver_radicacion f m true today ts).2.isSome = true)) ∧
    (∀ obs nueva, r.estado.es_estado_final = false →
      Observacion.crear_con_timestamp ("RADICACIÓN DEVUELTA: " ++ m) f ts = .ok obs →
      Observacion.combinar_observaciones [r.observaciones, obs] = .ok nueva →
      r.devolver_radicacion f m true today ts =
        ({ r with estado := .DEVUELTO,
                  funcionario_actual := some (pyUpper (pyStrip f)),
                  fecha_ultima_actualizacion := some today,
                  observaciones := nueva }, none)) ∧
    ((r.devolver_radicacion f m true today ts).2 = none → r.estado.es_estado_final = false) := by
  have hTadm : t.puede_ser_devuelto true = !t.estado.es_estado_final := by
    simp [Traslado.puede_ser_devuelto, Traslado.esta_en_estado_final]
  have hTno : t.puede_ser_devuelto false = false := by
    cases he : t.estado <;>
      simp [Traslado.puede_ser_devuelto, EstadoTraslado.puede_transicionar_a, he,
        EstadoTraslado.transicionesPermitidas]
  have hRadm : r.puede_ser_devuelta true = !r.estado.es_estado_final := by
    simp [Radicacion.puede_ser_devuelta, Radicacion.esta_en_estado_final]
  have hRno : r.puede_ser_devuelta false = false := by
    cases he : r.estado <;>
      simp [Radicacion.puede_ser_devuelta, EstadoRadicacion.puede_transicionar_a, he,
        EstadoRadicacion.transicionesPermitidas]
  refine ⟨hTadm, hTno, ?_, ?_, ?_, ?_, hRadm, hRno, ?_, ?_, ?_, ?_⟩
  · intro hnf
    unfold Traslado.devolver_traslado
    simp [hTno]
  · intro hf
    unfold Traslado.devolver_traslado
    simp [hTadm, hf]
  · intro obs nueva hnf hobs hcomb
    unfold Traslado.devolver_traslado
    simp [hTadm, hnf, hobs, hcomb]
  · intro hnone
    by_contra hfin
    have hfin' : t.estado.es_estado_final = true := by
      revert hfin
      cases t.estado.es_estado_final <;> simp
    unfold Traslado.devolver_traslado at hnone
    simp [hTadm, hfin'] at hnone
  · intro hnf
    unfold Radicacion.devolver_radicacion
    simp [hRno]
  · intro hf
    unfold Radicacion.devolver_radicacion
    simp [hRadm, hf]
  · intro obs nueva hnf hobs hcomb
    unfold Radicacion.devolver_radicacion
    simp [hRadm, hnf, hobs, hcomb]
  · intro hnone
    by_contra hfin
    have hfin' : r.estado.es_estado_final = true := by
      revert hfin
      cases r.estado.es_estado_final <;> simp
    unfold Radicacion.devolver_radicacion at hnone
    simp [hRadm, hfin'] at hnone

/-- A traslado in its initial state, used to instantiate C3/C6/C9. -/
def trasladoEjemplo : Traslado :=
  { placa := ⟨"ABC123"⟩, organismo_destino := ⟨"BOGOTA_DC"⟩, fecha_tramite := ⟨739500⟩,
    fecha_vencimiento := ⟨739560⟩, funcionario_envia := "F1",
    estado := .ENVIADO_ORGANISMO_DESTINO, observaciones := ⟨""⟩,
    funcionario_actual := some "F1", fecha_ultima_actualizacion := some 739500,
    domain_events := [] }

/-- A radicación in its initial state, used to instantiate C3/C6/C9/C10. -/
def radicacionEjemplo : Radicacion :=
  { placa := ⟨"ABC123"⟩, organismo_origen := ⟨"MEDELLIN"⟩, fecha_tramite := ⟨739500⟩,
    fecha_vencimiento := ⟨739560⟩, funcionario_recibe := "F1",
    estado := .PENDIENTE_RADICAR, observaciones := ⟨""⟩,
    funcionario_actual := some "F1", fecha_ultima_actualizacion := some 739500,
    domain_events := [], fue_recibida_flag := false }

set_option maxRecDepth 20000 in
/-- Concrete instantiation of `devolver_admin_vs_tabla`: the admin
devolución succeeds from the initial (non-terminal) traslado state, and
the non-admin one raises leaving the radicación unchanged. -/
theorem devolver_admin_vs_tabla_witness :
    trasladoEjemplo.devolver_traslado "F1" "doc" true 739518 "01/01/2026 10:00" =
      ({ trasladoEjemplo with
          estado := .DEVUELTO,
          funcionario_actual := some (pyUpper (pyStrip "F1")),
          fecha_ultima_actualizacion := some 739518,
          observaciones := ⟨"[01/01/2026 10:00 - F1] TRASLADO DEVUELTO: doc"⟩ }, none) ∧
    (radicacionEjemplo.devolver_radicacion "F1" "doc" false 739518 "01/01/2026 10:00").1 =
      radicacionEjemplo ∧
    (radicacionEjemplo.devolver_radicacion "F1" "doc" false 739518 "01/01/2026 10:00").2.isSome =
      true := by
  have h9 := (devolver_admin_vs_tabla trasladoEjemplo radicacionEjemplo "F1" "doc" 739518
    "01/01/2026 10:00").2.2.2.2.2.2.2.2.1 (by decide)
  refine ⟨?_, h9.1, h9.2⟩
  exact (devolver_admin_vs_tabla trasladoEjemplo radicacionEjemplo "F1" "doc" 739518
      "01/01/2026 10:00").2.2.2.2.1
    ⟨"[01/01/2026 10:00 - F1] TRASLADO DEVUELTO: doc"⟩
    ⟨"[01/01/2026 10:00 - F1] TRASLADO DEVUELTO: doc"⟩
    (by decide) (by decide) (by decide)

/-! ### C10: reception status does not survive rehydration -/

theorem marcar_como_recibida_flag (r : Radicacion) (f2 : String) (today : Fecha) (ts : String)
    (hnone : (r.marcar_como_recibida f2 today ts).2 = none) :
    (r.marcar_como_recibida f2 today ts).1.fue_recibida = true := by
  unfold Radicacion.marcar_como_recibida at hnone ⊢
  by_cases hg : r.puede_ser_recibida = true
  · simp only [hg, Bool.not_true, Bool.false_eq_true, if_false] at hnone ⊢
    cases h1 : Observacion.crear_con_timestamp
        ("Radicación recibida del " ++ r.organismo_origen.get_nombre_corto) f2 ts with
    | error e => rw [h1] at hnone; simp at hnone
    | ok obs =>
      dsimp only at hnone ⊢
      cases h2 : Observacion.combinar_observaciones [r.observaciones, obs] with
      | error e => simp [Radicacion.fue_recibida]
      | ok nueva => simp [Radicacion.fue_recibida]
  · simp [hg] at hnone

/-- C10: every radicación produced by `crear_desde_repositorio` reports
`fue_recibida() == False`, whatever estado was rehydrated, because the
factory never restores the private flag; the flag is set only by a live
`marcar_como_recibida` call. -/
theorem radicacion_rehidratada_no_recibida
    (placa : Placa) (org : Ubicacion) (ft : FechaTramite) (fv : FechaVencimiento)
    (f : String) (estado : EstadoRadicacion) (obs : Observacion)
    (fa : Option String) (fu : Option Fecha) (r : Radicacion)
    (h : Radicacion.crear_desde_repositorio placa org ft fv f estado obs fa fu = .ok r) :
    r.fue_recibida = false ∧
    (∀ (f2 : String) (today : Fecha) (ts : String),
      (r.marcar_como_recibida f2 today ts).2 = none →
      (r.marcar_como_recibida f2 today ts).1.fue_recibida = true) := by
  unfold Radicacion.crear_desde_repositorio at h
  repeat' split at h
  all_goals cases h
  constructor
  · rfl
  · intro f2 today ts hnone
    exact marcar_como_recibida_flag _ f2 today ts hnone

/-- Concrete instantiation of `radicacion_rehidratada_no_recibida`: a
radicación rehydrated in estado RECIBIDO still reports not received. -/
theorem radicacion_rehidratada_no_recibida_witness :
    (match Radicacion.crear_desde_repositorio ⟨"ABC123"⟩ ⟨"MEDELLIN"⟩ ⟨739500⟩ ⟨739560⟩
        "F1" .RECIBIDO ⟨""⟩ (some "F1") (some 739500) with
      | .ok r => r.fue_recibida = false
      | .error _ => False) := by
  have h := radicacion_rehidratada_no_recibida ⟨"ABC123"⟩ ⟨"MEDELLIN"⟩ ⟨739500⟩ ⟨739560⟩
    "F1" .RECIBIDO ⟨""⟩ (some "F1") (some 739500)
    { radicacionEjemplo with estado := .RECIBIDO } (by decide)
  simpa using h.1

/-! ### Novedad enums (value_objects/enums/novedades) -/

/-- `EstadoNovedad` (estado_novedad.py). -/
inductive EstadoNovedad
  | PENDIENTE
  | EN_REVISION
  | RESUELTA
  | REABIERTA
deriving DecidableEq, Repr

namespace EstadoNovedad

/-- `EstadoNovedad._get_transiciones_permitidas`. -/
def transicionesPermitidas : EstadoNovedad → List EstadoNovedad
  | PENDIENTE => [EN_REVISION, RESUELTA]
  | EN_REVISION => [RESUELTA, PENDIENTE]
  | RESUELTA => [REABIERTA]
  | REABIERTA => [EN_REVISION, RESUELTA]

/-- `EstadoNovedad.puede_transicionar_a`. -/
def puede_transicionar_a (s nuevo : EstadoNovedad) : Bool :=
  (transicionesPermitidas s).contains nuevo

/-- `EstadoNovedad.es_estado_final`. -/
def es_estado_final (s : EstadoNovedad) : Bool := s = RESUELTA

/-- The `.value` string of each `EstadoNovedad` member. -/
def value : EstadoNovedad → String
  | PENDIENTE => "pendiente"
  | EN_REVISION => "en_revision"
  | RESUELTA => "resuelta"
  | REABIERTA => "reabierta"

end EstadoNovedad

/-- `PrioridadNovedad` (prioridad_novedad.py). -/
inductive PrioridadNovedad
  | BAJA
  | MEDIA
  | ALTA
  | CRITICA
deriving DecidableEq, Repr

/-- The `.value` string of each `PrioridadNovedad` member. -/
def PrioridadNovedad.value : PrioridadNovedad → String
  | .BAJA => "baja"
  | .MEDIA => "media"
  | .ALTA => "alta"
  | .CRITICA => "critica"

/-- `TipoNovedad` (tipo_novedad.py); opaque payload for the claims. -/
inductive TipoNovedad
  | DOCUMENTO_FALTANTE
  | DOCUMENTO_INCORRECTO
  | INFORMACION_INCONSISTENTE
  | FIRMA_FALTANTE
  | FECHA_INCORRECTA
  | DATOS_PROPIETARIO_INCOMPLETOS
  | SOAT_VENCIDO
  | TECNICOMECANICA_VENCIDA
  | OTRO
deriving DecidableEq, Repr

/-- `IdentificadorNovedad` value object (ids/id_novedad.py); opaque
payload for the claims. -/
structure IdentificadorNovedad where
  codigo : String
deriving DecidableEq, Repr

/-- `DescripcionNovedad` value object (descripcion_novedad.py); opaque
payload for the claims. -/
structure DescripcionNovedad where
  valor : String
deriving DecidableEq, Repr

/-! ### The `Novedad` entity (entities/novedad.py) -/

structure Novedad where
  identificador : IdentificadorNovedad
  placa : Placa
  tipo_novedad : TipoNovedad
  descripcion : DescripcionNovedad
  prioridad : PrioridadNovedad
  funcionario_reporta : String
  fecha_reporte : Fecha
  tipo_proceso : String
  estado : EstadoNovedad
  observaciones : Observacion
  funcionario_resuelve : Option String
  fecha_resolucion : Option Fecha
  descripcion_resolucion : Option String
  funcionario_actual : Option String
  fecha_ultima_actualizacion : Option Fecha
  domain_events : List DomainEvent
deriving DecidableEq, Repr

namespace Novedad

/-- `Novedad.get_domain_events`. -/
def get_domain_events (n : Novedad) : List DomainEvent × Novedad :=
  (n.domain_events, { n with domain_events := [] })

/-- `Novedad.esta_resuelta`. -/
def esta_resuelta (n : Novedad) : Bool := n.estado = .RESUELTA

/-- `Novedad.puede_pasar_a_revision`. -/
def puede_pasar_a_revision (n : Novedad) : Bool :=
  n.estado.puede_transicionar_a .EN_REVISION

/-- `Novedad.puede_ser_resuelta`. -/
def puede_ser_resuelta (n : Novedad) : Bool :=
  n.estado.puede_transicionar_a .RESUELTA

/-- `Novedad.puede_ser_reabierta`. -/
def puede_ser_reabierta (n : Novedad) : Bool :=
  n.estado.puede_transicionar_a .REABIERTA

/-- `Novedad.puede_cambiar_prioridad`. -/
def puede_cambiar_prioridad (n : Novedad) : Bool := !n.esta_resuelta

/-- `Novedad.tomar_en_revision`. -/
def tomar_en_revision (n : Novedad) (funcionario_id : String) (today : Fecha) (ts : String) :
    Novedad × Option String :=
  if !n.puede_pasar_a_revision then
    (n, some ("No se puede pasar a revisión desde estado: " ++ n.estado.value))
  else
    let n1 : Novedad :=
      { n with estado := .EN_REVISION,
               funcionario_actual := some (pyUpper (pyStrip funcionario_id)),
               fecha_ultima_actualizacion := some today }
    match Observacion.crear_con_timestamp
        ("Novedad tomada en revisión por " ++ funcionario_id) funcionario_id ts with
    | .error e => (n1, some e)
    | .ok obs =>
      match Observacion.combinar_observaciones [n1.observaciones, obs] with
      | .error e => (n1, some e)
      | .ok nueva => ({ n1 with observaciones := nueva }, none)

/-- `Novedad.resolver_novedad`. -/
def resolver_novedad (n : Novedad) (funcionario_id descripcion_resolucion : String)
    (today : Fecha) (ts : String) : Novedad × Option String :=
  if !n.puede_ser_resuelta then
    (n, some ("No se puede resolver desde estado: " ++ n.estado.value))
  else if descripcion_resolucion = "" || pyStrip descripcion_resolucion = "" then
    (n, some "La descripción de resolución no puede estar vacía")
  else
    let n1 : Novedad :=
      { n with estado := .RESUELTA,
               funcionario_resuelve := some (pyUpper (pyStrip funcionario_id)),
               funcionario_actual := some (pyUpper (pyStrip funcionario_id)),
               fecha_resolucion := some today,
               fecha_ultima_actualizacion := some today,
               descripcion_resolucion := some (pyStrip descripcion_resolucion) }
    match Observacion.crear_con_timestamp
        ("NOVEDAD RESUELTA: " ++ descripcion_resolucion) funcionario_id ts with
    | .error e => (n1, some e)
    | .ok obs =>
      match Observacion.combinar_observaciones [n1.observaciones, obs] with
      | .error e => (n1, some e)
      | .ok nueva => ({ n1 with observaciones := nueva }, none)

/-- `Novedad.reabrir_novedad`: transition to REABIERTA and clear the
three resolution fields, then append the reopening entry. -/
def reabrir_novedad (n : Novedad) (funcionario_id motivo_reapertura : String)
    (today : Fecha) (ts : String) : Novedad × Option String :=
  if !n.puede_ser_reabierta then
    (n, some ("No se puede reabrir desde estado: " ++ n.estado.value))
  else if motivo_reapertura = "" || pyStrip motivo_reapertura = "" then
    (n, some "El motivo de reapertura no puede estar vacío")
  else
    let n1 : Novedad :=
      { n with estado := .REABIERTA,
               funcionario_actual := some (pyUpper (pyStrip funcionario_id)),
               fecha_ultima_actualizacion := some today,
               funcionario_resuelve := none,
               fecha_resolucion := none,
               descripcion_resolucion := none }
    match Observacion.crear_con_timestamp
        ("NOVEDAD REABIERTA: " ++ motivo_reapertura) funcionario_id ts with
    | .error e => (n1, some e)
    | .ok obs =>
      match Observacion.combinar_observaciones [n1.observaciones, obs] with
      | .error e => (n1, some e)
      | .ok nueva => ({ n1 with observaciones := nueva }, none)

/-- `Novedad.cambiar_prioridad` (never touches `estado`). -/
def cambiar_prioridad (n : Novedad) (funcionario_id : String)
    (nueva_prioridad : PrioridadNovedad) (justificacion : String)
    (today : Fecha) (ts : String) : Novedad × Option String :=
  if !n.puede_cambiar_prioridad then
    (n, some "No se puede cambiar la prioridad de una novedad resuelta")
  else if nueva_prioridad = n.prioridad then
    (n, some "La nueva prioridad debe ser diferente a la actual")
  else if justificacion = "" || pyStrip justificacion = "" then
    (n, some "La justificación del cambio de prioridad no puede estar vacía")
  else
    let n1 : Novedad :=
      { n with prioridad := nueva_prioridad,
               funcionario_actual := some (pyUpper (pyStrip funcionario_id)),
               fecha_ultima_actualizacion := some today }
    match Observacion.crear_con_timestamp
        ("PRIORIDAD CAMBIADA: De " ++ pyUpper n.prioridad.value ++ " a " ++
          pyUpper nueva_prioridad.value ++ ". " ++ justificacion) funcionario_id ts with
    | .error e => (n1, some e)
    | .ok obs =>
      match Observacion.combinar_observaciones [n1.observaciones, obs] with
      | .error e => (n1, some e)
      | .ok nueva => ({ n1 with observaciones := nueva }, none)

/-- `Novedad.actualizar_observaciones` (never touches `estado`). -/
def actualizar_observaciones (n : Novedad) (funcionario_id nuevas : String)
    (today : Fecha) (ts : String) : Novedad × Option String :=
  if n.esta_resuelta then
    (n, some "No se pueden actualizar observaciones de una novedad resuelta")
  else
    match Observacion.crear_con_timestamp nuevas funcionario_id ts with
    | .error e => (n, some e)
    | .ok obs =>
      match Observacion.combinar_observaciones [n.observaciones, obs] with
      | .error e => (n, some e)
      | .ok nueva =>
        ({ n with observaciones := nueva,
                  fecha_ultima_actualizacion := some today }, none)

end Novedad

/-! ### C7: RESUELTA can only be left through `reabrir_novedad` -/

/-- C7: from estado RESUELTA, `tomar_en_revision`, `resolver_novedad`,
`cambiar_prioridad` and `actualizar_observaciones` all raise leaving the
novedad unchanged (RESUELTA has no transition to their targets and the
resolved-guards fire first); `reabrir_novedad` is the only command that
changes estado, and when it succeeds it sets estado REABIERTA and
clears `funcionario_resuelve`, `fecha_resolucion` and
`descripcion_resolucion`; even a failing `reabrir_novedad` either
leaves the novedad unchanged or has moved it to REABIERTA. -/
theorem novedad_resuelta_solo_reabrir (n : Novedad) (f m d j : String)
    (p : PrioridadNovedad) (today : Fecha) (ts : String)
    (hres : n.estado = .RESUELTA) :
    ((n.tomar_en_revision f today ts).1 = n ∧
      (n.tomar_en_revision f today ts).2.isSome = true) ∧
    ((n.resolver_novedad f d today ts).1 = n ∧
      (n.resolver_novedad f d today ts).2.isSome = true) ∧
    ((n.cambiar_prioridad f p j today ts).1 = n ∧
      (n.cambiar_prioridad f p j today ts).2.isSome = true) ∧
    ((n.actualizar_observaciones f d today ts).1 = n ∧
      (n.actualizar_observaciones f d today ts).2.isSome = true) ∧
    ((n.reabrir_novedad f m today ts).2 = none →
      ((n.reabrir_novedad f m today ts).1.estado = .REABIERTA ∧
       (n.reabrir_novedad f m today ts).1.funcionario_resuelve = none ∧
       (n.reabrir_novedad f m today ts).1.fecha_resolucion = none ∧
       (n.reabrir_novedad f m today ts).1.descripcion_resolucion = none)) ∧
    ((n.reabrir_novedad f m today ts).1.estado = .REABIERTA ∨
      (n.reabrir_novedad f m today ts).1 = n) := by
  have h1 : n.puede_pasar_a_revision = false := by
    simp [Novedad.puede_pasar_a_revision, hres, EstadoNovedad.puede_transicionar_a,
      EstadoNovedad.transicionesPermitidas]
  have h2 : n.puede_ser_resuelta = false := by
    simp [Novedad.puede_ser_resuelta, hres, EstadoNovedad.puede_transicionar_a,
      EstadoNovedad.transicionesPermitidas]
  have h3 : n.esta_resuelta = true := by simp [Novedad.esta_resuelta, hres]
  have h4 : n.puede_ser_reabierta = true := by
    simp [Novedad.puede_ser_reabierta, hres, EstadoNovedad.puede_transicionar_a,
      EstadoNovedad.transicionesPermitidas]
  refine ⟨?_, ?_, ?_, ?_, ?_, ?_⟩
  · unfold Novedad.tomar_en_revision
    simp [h1]
  · unfold Novedad.resolver_novedad
    simp [h2]
  · unfold Novedad.cambiar_prioridad
    simp [Novedad.puede_cambiar_prioridad, h3]
  · unfold Novedad.actualizar_observaciones
    simp [h3]
  · intro hnone
    unfold Novedad.reabrir_novedad at hnone ⊢
    simp only [h4, Bool.not_true, Bool.false_eq_true, if_false] at hnone ⊢
    by_cases hm : (m = "" || pyStrip m = "") = true
    · simp [hm] at hnone
    · simp only [hm, Bool.false_eq_true, if_false] at hnone ⊢
      cases ho : Observacion.crear_con_timestamp ("NOVEDAD REABIERTA: " ++ m) f ts with
      | error e => rw [ho] at hnone; simp at hnone
      | ok obs =>
        rw [ho] at hnone
        dsimp only at hnone ⊢
        cases hc : Observacion.combinar_observaciones [n.observaciones, obs] with
        | error e => rw [hc] at hnone; simp at hnone
        | ok nueva => simp
  · unfold Novedad.reabrir_novedad
    simp only [h4, Bool.not_true, Bool.false_eq_true, if_false]
    by_cases hm : (m = "" || pyStrip m = "") = true
    · simp [hm]
    · simp only [hm, Bool.false_eq_true, if_false]
      cases ho : Observacion.crear_con_timestamp ("NOVEDAD REABIERTA: " ++ m) f ts with
      | error e => simp
      | ok obs =>
        dsimp only
        cases hc : Observacion.combinar_observaciones [n.observaciones, obs] with
        | error e => simp
        | ok nueva => simp

/-- A resolved novedad, the concrete C7 input. -/
def novedadResuelta : Novedad :=
  { identificador := ⟨"NOV-001"⟩, placa := ⟨"ABC123"⟩, tipo_novedad := .DOCUMENTO_FALTANTE,
    descripcion := ⟨"Falta el SOAT"⟩, prioridad := .MEDIA, funcionario_reporta := "F1",
    fecha_reporte := 739500, tipo_proceso := "traslado", estado := .RESUELTA,
    observaciones := ⟨""⟩, funcionario_resuelve := some "R1",
    fecha_resolucion := some 739501, descripcion_resolucion := some "fix",
    funcionario_actual := some "R1", fecha_ultima_actualizacion := some 739501,
    domain_events := [] }

/-- Concrete instantiation of `novedad_resuelta_solo_reabrir` at
`novedadResuelta` with funcionario "R2" and motivo "regression". -/
theorem novedad_resuelta_solo_reabrir_witness :
    ((novedadResuelta.tomar_en_revision "R2" 739502 "01/01/2026 10:00").1 = novedadResuelta ∧
      (novedadResuelta.tomar_en_revision "R2" 739502 "01/01/2026 10:00").2.isSome = true) ∧
    ((novedadResuelta.reabrir_novedad "R2" "regression" 739502 "01/01/2026 10:00").2 = none →
      ((novedadResuelta.reabrir_novedad "R2" "regression" 739502 "01/01/2026 10:00").1.estado
          = .REABIERTA ∧
       (novedadResuelta.reabrir_novedad "R2" "regression" 739502 "01/01/2026 10:00").1.funcionario_resuelve
          = none ∧
       (novedadResuelta.reabrir_novedad "R2" "regression" 739502 "01/01/2026 10:00").1.fecha_resolucion
          = none ∧
       (novedadResuelta.reabrir_novedad "R2" "regression" 739502 "01/01/2026 10:00").1.descripcion_resolucion
          = none)) := by
  have h := novedad_resuelta_solo_reabrir novedadResuelta "R2" "regression" "d" "j"
    .ALTA 739502 "01/01/2026 10:00" (by decide)
  exact ⟨h.1, h.2.2.2.2.1⟩

/-! ### C9: draining the domain-event buffer -/

/-- C9: for each of the four entities, `get_domain_events` returns the
whole pending buffer and the post-call entity equals the original with
only the buffer cleared (every other field untouched), so an immediate
second drain returns `[]`; moreover every `Cuenta` command only appends
to the buffer, so events buffered since the previous drain come back in
production order. -/
theorem get_domain_events_drena :
    (∀ c : Cuenta, c.get_domain_events = (c.domain_events, { c with domain_events := [] }) ∧
      (c.get_domain_events.2.get_domain_events).1 = []) ∧
    (∀ t : Traslado, t.get_domain_events = (t.domain_events, { t with domain_events := [] }) ∧
      (t.get_domain_events.2.get_domain_events).1 = []) ∧
    (∀ r : Radicacion, r.get_domain_events = (r.domain_events, { r with domain_events := [] }) ∧
      (r.get_domain_events.2.get_domain_events).1 = []) ∧
    (∀ n : Novedad, n.get_domain_events = (n.domain_events, { n with domain_events := [] }) ∧
      (n.get_domain_events.2.get_domain_events).1 = []) ∧
    (∀ (c : Cuenta) (cmd : Comando) (tdy : Fecha), ∃ nuevos,
      ((Cuenta.aplicar cmd tdy c).1).domain_events = c.domain_events ++ nuevos) := by
  refine ⟨fun c => ⟨rfl, rfl⟩, fun t => ⟨rfl, rfl⟩, fun r => ⟨rfl, rfl⟩,
    fun n => ⟨rfl, rfl⟩, ?_⟩
  intro c cmd tdy
  cases cmd <;>
    simp only [Cuenta.aplicar, Cuenta.iniciar_proceso_traslado,
      Cuenta.iniciar_proceso_radicacion, Cuenta.completar_proceso_traslado,
      Cuenta.completar_proceso_radicacion, Cuenta.devolver_proceso_traslado,
      Cuenta.devolver_proceso_radicacion, Cuenta.inactivar_cuenta,
      Cuenta.reactivar_cuenta, Cuenta.reasignar_funcionario] <;>
    repeat' split
  all_goals first
    | exact ⟨_, rfl⟩
    | exact ⟨[], by simp⟩

/-! ### C6: which transitions append to `observaciones`

The normalization facts below establish that re-normalizing the join of
two already-normalized observation texts around the "\n---\n" separator
is the identity, so a successful `combinar_observaciones` really
appends the new entry after the unchanged prior content. -/

theorem dividirLineas_ne_nil (l : List Char) : dividirLineas l ≠ [] := by
  cases l with
  | nil => simp [dividirLineas]
  | cons c r =>
    unfold dividirLineas
    by_cases hc : c = '\n'
    · simp [hc]
    · simp only [hc, if_false]
      cases dividirLineas r <;> simp

theorem dividirLineas_cons (c : Char) (r : List Char) :
    dividirLineas (c :: r) =
      if c = '\n' then [] :: dividirLineas r
      else
        match dividirLineas r with
        | [] => [[c]]
        | h :: t => (c :: h) :: t := by
  conv_lhs => rw [dividirLineas]

theorem dividirLineas_append_newline (a r : List Char) :
    dividirLineas (a ++ '\n' :: r) = dividirLineas a ++ dividirLineas r := by
  induction a with
  | nil =>
    rw [List.nil_append, dividirLineas_cons]
    simp [dividirLineas]
  | cons c a ih =>
    by_cases hc : c = '\n'
    · subst hc
      rw [List.cons_append, dividirLineas_cons, ih, dividirLineas_cons]
      simp
    · have e1 : dividirLineas (c :: (a ++ '\n' :: r)) =
          match dividirLineas (a ++ '\n' :: r) with
          | [] => [[c]]
          | h :: t => (c :: h) :: t := by
        rw [dividirLineas_cons]
        simp [hc]
      have e2 : dividirLineas (c :: a) =
          match dividirLineas a with
          | [] => [[c]]
          | h :: t => (c :: h) :: t := by
        rw [dividirLineas_cons]
        simp [hc]
      rw [List.cons_append, e1, e2, ih]
      cases hd : dividirLineas a with
      | nil => exact absurd hd (dividirLineas_ne_nil a)
      | cons h t => simp

theorem unirLineas_dividirLineas (l : List Char) : unirLineas (dividirLineas l) = l := by
  induction l with
  | nil => rfl
  | cons c r ih =>
    unfold dividirLineas
    by_cases hc : c = '\n'
    · subst hc
      simp only [if_true]
      cases hd : dividirLineas r with
      | nil => exact absurd hd (dividirLineas_ne_nil r)
      | cons h t =>
        rw [hd] at ih
        simpa [unirLineas] using ih
    · simp only [hc, if_false]
      cases hd : dividirLineas r with
      | nil => exact absurd hd (dividirLineas_ne_nil r)
      | cons h t =>
        rw [hd] at ih
        cases t with
        | nil => simpa [unirLineas] using congrArg (c :: ·) ih
        | cons h2 t2 => simpa [unirLineas] using congrArg (c :: ·) ih

theorem unirLineas_append (xs ys : List (List Char)) (hy : ys ≠ []) :
    xs ≠ [] → unirLineas (xs ++ ys) = unirLineas xs ++ '\n' :: unirLineas ys := by
  induction xs with
  | nil => intro hx; exact absurd rfl hx
  | cons x xt ih =>
    intro _
    cases xt with
    | nil =>
      cases ys with
      | nil => exact absurd rfl hy
      | cons y yt => simp [unirLineas]
    | cons x2 xt2 =>
      have ih2 := ih (by simp)
      have e1 : unirLineas ((x :: x2 :: xt2) ++ ys) =
          x ++ '\n' :: unirLineas ((x2 :: xt2) ++ ys) := by
        simp only [List.cons_append]
        rfl
      have e2 : unirLineas (x :: x2 :: xt2) = x ++ '\n' :: unirLineas (x2 :: xt2) := rfl
      rw [e1, ih2, e2]
      simp

theorem mapIdOn {α : Type} (f : α → α) (l : List α) (h : ∀ x ∈ l, f x = x) :
    l.map f = l := by
  induction l with
  | nil => rfl
  | cons x r ih =>
    simp only [List.map_cons]
    rw [h x (by simp), ih (fun y hy => h y (by simp [hy]))]

theorem colapsarVaciasAux_length_le (p : Bool) (xs : List (List Char)) :
    (colapsarVaciasAux p xs).length ≤ xs.length := by
  induction xs generalizing p with
  | nil => simp [colapsarVaciasAux]
  | cons x r ih =>
    unfold colapsarVaciasAux
    by_cases hx : x = []
    · by_cases hp : p = true
      · subst hp
        simp only [hx, if_true]
        exact Nat.le_succ_of_le (ih true)
      · have hp' : p = false := by revert hp; cases p <;> simp
        subst hp'
        simp only [hx, if_true, Bool.false_eq_true, if_false, List.length_cons]
        exact Nat.succ_le_succ (ih true)
    · simp only [hx, if_false, List.length_cons]
      exact Nat.succ_le_succ (ih false)

theorem colapsarVaciasAux_append (xs ys : List (List Char)) (y : List Char)
    (hy : y ≠ []) (hys : colapsarVaciasAux false ys = ys) :
    ∀ p, colapsarVaciasAux p xs = xs →
      colapsarVaciasAux p (xs ++ y :: ys) = xs ++ y :: ys := by
  induction xs with
  | nil =>
    intro p _
    unfold colapsarVaciasAux
    simp [hy, hys]
  | cons x r ih =>
    intro p hfix
    by_cases hx : x = []
    · subst hx
      cases p with
      | true =>
        exfalso
        unfold colapsarVaciasAux at hfix
        simp only [if_true] at hfix
        have := colapsarVaciasAux_length_le true r
        rw [hfix] at this
        simp at this
      | false =>
        unfold colapsarVaciasAux at hfix ⊢
        simp only [if_true] at hfix ⊢
        have hr : colapsarVaciasAux true r = r := by
          have := congrArg List.tail hfix
          simpa using this
        rw [List.cons_append]
        have := ih true hr
        simp only [if_true]
        rw [this]
        simp
    · unfold colapsarVaciasAux at hfix ⊢
      simp only [hx, if_false] at hfix ⊢
      have hr : colapsarVaciasAux false r = r := by
        have := congrArg List.tail hfix
        simpa using this
      rw [List.cons_append]
      simp only [hx, if_false]
      rw [ih false hr]

theorem quitarVaciasFinales_id (ls : List (List Char)) (y : List Char)
    (hl : ls.getLast? = some y) (hy : y ≠ []) : quitarVaciasFinales ls = ls := by
  unfold quitarVaciasFinales
  have hrev : ls.reverse.head? = some y := by
    rw [List.head?_reverse]
    exact hl
  cases hr : ls.reverse with
  | nil => rw [hr] at hrev; simp at hrev
  | cons z zt =>
    rw [hr] at hrev
    simp only [List.head?_cons, Option.some.injEq] at hrev
    subst hrev
    rw [List.dropWhile_cons]
    simp only [hy]
    rw [← hr]
    simp

theorem pyStripL_ne_nil_of_mem (l : List Char) (c : Char) (hc : c ∈ l)
    (hw : pyWs c = false) : pyStripL l ≠ [] := by
  unfold pyStripL
  intro h
  have h1 : (l.dropWhile pyWs).reverse.dropWhile pyWs = [] := by
    have := congrArg List.reverse h
    simpa using this
  have h2 : ∀ x ∈ (l.dropWhile pyWs).reverse, pyWs x = true := by
    intro x hx
    have := List.dropWhile_eq_nil_iff.mp h1
    simpa using this x hx
  have h3 : c ∈ l.dropWhile pyWs ∨ c ∈ l.takeWhile pyWs := by
    have := List.takeWhile_append_dropWhile (p := pyWs) (l := l)
    rw [← this] at hc
    rcases List.mem_append.mp hc with h | h
    · exact Or.inr h
    · exact Or.inl h
  rcases h3 with h3 | h3
  · have := h2 c (by simpa using h3)
    rw [hw] at this
    cases this
  · have := List.mem_takeWhile_imp h3
    rw [hw] at this
    cases this

/-- A line is in normal form: space runs collapsed, stripped, no
newline. -/
def lineaNormalizada (l : List Char) : Prop :=
  colapsarEspaciosAux false l = l ∧ pyStripL l = l ∧ '\n' ∉ l

instance (l : List Char) : Decidable (lineaNormalizada l) := by
  unfold lineaNormalizada; infer_instance

/-- A text is in the normal form `_normalizar_texto` produces: no
replaceable control characters, every line normalized, first and last
lines non-empty and no run of two consecutive empty lines. -/
def textoNormalizado (l : List Char) : Prop :=
  l = [] ∨
  ((∀ c ∈ l, esControlReemplazable c = false) ∧
   (∀ ln ∈ dividirLineas l, lineaNormalizada ln) ∧
   (dividirLineas l).head? ≠ some [] ∧
   (dividirLineas l).getLast? ≠ some [] ∧
   colapsarVaciasAux false (dividirLineas l) = dividirLineas l)

instance (l : List Char) : Decidable (textoNormalizado l) := by
  unfold textoNormalizado; infer_instance

/-- Joining two normalized non-empty texts with the "\n---\n" separator
is again in normal form, so re-normalizing is the identity: the prior
text survives as an exact prefix. -/
theorem normalizarTexto_append_sep (a b : List Char)
    (ha : textoNormalizado a) (hb : textoNormalizado b) (hna : a ≠ []) (hnb : b ≠ []) :
    normalizarTexto (a ++ '\n' :: '-' :: '-' :: '-' :: '\n' :: b) =
      a ++ '\n' :: '-' :: '-' :: '-' :: '\n' :: b := by
  rcases ha with ha | ⟨hactl, halin, hahd, hals, hacol⟩
  · exact absurd ha hna
  rcases hb with hb | ⟨hbctl, hblin, hbhd, hbls, hbcol⟩
  · exact absurd hb hnb
  have hmem : '-' ∈ a ++ '\n' :: '-' :: '-' :: '-' :: '\n' :: b := by simp
  have hguard : pyStripL (a ++ '\n' :: '-' :: '-' :: '-' :: '\n' :: b) ≠ [] :=
    pyStripL_ne_nil_of_mem _ '-' hmem (by decide)
  unfold normalizarTexto
  rw [if_neg hguard]
  have hctl : quitarControles (a ++ '\n' :: '-' :: '-' :: '-' :: '\n' :: b) =
      a ++ '\n' :: '-' :: '-' :: '-' :: '\n' :: b := by
    unfold quitarControles
    refine mapIdOn _ _ ?_
    intro c hc
    rcases List.mem_append.mp hc with hc | hc
    · simp [hactl c hc]
    · simp only [List.mem_cons] at hc
      rcases hc with rfl | rfl | rfl | rfl | rfl | hc
      · decide
      · decide
      · decide
      · decide
      · decide
      · simp [hbctl c hc]
  rw [hctl]
  have hshape : a ++ '\n' :: '-' :: '-' :: '-' :: '\n' :: b =
      a ++ '\n' :: (['-', '-', '-'] ++ '\n' :: b) := by simp
  have hdiv : dividirLineas (a ++ '\n' :: '-' :: '-' :: '-' :: '\n' :: b) =
      dividirLineas a ++ ['-', '-', '-'] :: dividirLineas b := by
    rw [hshape, dividirLineas_append_newline, dividirLineas_append_newline]
    have hguion : dividirLineas ['-', '-', '-'] = [['-', '-', '-']] := by decide
    rw [hguion]
    simp
  rw [hdiv]
  have hmap : (dividirLineas a ++ ['-', '-', '-'] :: dividirLineas b).map normalizarLinea =
      dividirLineas a ++ ['-', '-', '-'] :: dividirLineas b := by
    refine mapIdOn _ _ ?_
    intro ln hln
    rcases List.mem_append.mp hln with hln | hln
    · obtain ⟨hcol, hstr, _⟩ := halin ln hln
      unfold normalizarLinea
      rw [hcol, hstr]
    · simp only [List.mem_cons] at hln
      rcases hln with rfl | hln
      · decide
      · obtain ⟨hcol, hstr, _⟩ := hblin ln hln
        unfold normalizarLinea
        rw [hcol, hstr]
  rw [hmap]
  have hdropa : (dividirLineas a ++ ['-', '-', '-'] :: dividirLineas b).dropWhile (· = []) =
      dividirLineas a ++ ['-', '-', '-'] :: dividirLineas b := by
    cases hda : dividirLineas a with
    | nil => exact absurd hda (dividirLineas_ne_nil a)
    | cons h t =>
      have hne : h ≠ [] := by
        rw [hda] at hahd
        simpa using hahd
      rw [List.cons_append, List.dropWhile_cons]
      simp [hne]
  rw [hdropa]
  have hlastb : ∃ y, (dividirLineas b).getLast? = some y ∧ y ≠ [] := by
    cases hgb : (dividirLineas b).getLast? with
    | none =>
      exfalso
      have := List.getLast?_isSome (l := dividirLineas b)
      rw [hgb] at this
      simp [dividirLineas_ne_nil b] at this
    | some y =>
      refine ⟨y, rfl, ?_⟩
      rw [hgb] at hbls
      simpa using hbls
  obtain ⟨y, hy1, hy2⟩ := hlastb
  have hlast2 : (['-', '-', '-'] :: dividirLineas b).getLast? = some y := by
    rw [show (['-', '-', '-'] :: dividirLineas b) = [['-', '-', '-']] ++ dividirLineas b by simp]
    rw [List.getLast?_append]
    simp [hy1]
  have hquitar : quitarVaciasFinales (dividirLineas a ++ ['-', '-', '-'] :: dividirLineas b) =
      dividirLineas a ++ ['-', '-', '-'] :: dividirLineas b := by
    refine quitarVaciasFinales_id _ y ?_ hy2
    rw [List.getLast?_append]
    simp [hlast2]
  rw [hquitar]
  have hcola : colapsarVaciasAux false (dividirLineas a ++ ['-', '-', '-'] :: dividirLineas b) =
      dividirLineas a ++ ['-', '-', '-'] :: dividirLineas b :=
    colapsarVaciasAux_append (dividirLineas a) (dividirLineas b) ['-', '-', '-']
      (by simp) hbcol false hacol
  rw [hcola]
  rw [unirLineas_append (dividirLineas a) (['-', '-', '-'] :: dividirLineas b)
    (by simp) (dividirLineas_ne_nil a)]
  rw [show (['-', '-', '-'] :: dividirLineas b) = [['-', '-', '-']] ++ dividirLineas b by simp]
  rw [unirLineas_append [['-', '-', '-']] (dividirLineas b)
    (dividirLineas_ne_nil b) (by simp)]
  rw [unirLineas_dividirLineas, unirLineas_dividirLineas]
  simp [unirLineas]

theorem data_append (s t : String) : (s ++ t).data = s.data ++ t.data := rfl

theorem esta_vacia_ne_nil (o : Observacion) (h : o.esta_vacia = false) :
    o.valor.data ≠ [] := by
  intro hd
  have : o.valor = "" := by
    cases ho : o.valor with
    | mk d => rw [ho] at hd; cases hd; rfl
  unfold Observacion.esta_vacia at h
  rw [this] at h
  simp at h

/-- A successful `combinar_observaciones` of two normalized non-empty
observations yields exactly the first value, the "\n---\n" separator
and the second value: the prior content is preserved as a strict
prefix. -/
theorem combinar_ok_append (o1 o2 nueva : Observacion)
    (h1 : textoNormalizado o1.valor.data) (h2 : textoNormalizado o2.valor.data)
    (hv1 : o1.esta_vacia = false) (hv2 : o2.esta_vacia = false)
    (hC : Observacion.combinar_observaciones [o1, o2] = .ok nueva) :
    nueva.valor.data =
      o1.valor.data ++ '\n' :: '-' :: '-' :: '-' :: '\n' :: o2.valor.data := by
  have hne1 : o1.valor.data ≠ [] := esta_vacia_ne_nil o1 hv1
  have hne2 : o2.valor.data ≠ [] := esta_vacia_ne_nil o2 hv2
  unfold Observacion.combinar_observaciones at hC
  have hf : [o1, o2].filter (fun o => !o.esta_vacia) = [o1, o2] := by
    simp [List.filter, hv1, hv2]
  rw [hf] at hC
  have hjoin : Observacion.unirConSeparador ([o1, o2].map Observacion.valor) =
      o1.valor ++ "\n---\n" ++ o2.valor := rfl
  dsimp only at hC
  rw [hjoin] at hC
  simp only [Observacion.crearE] at hC
  have hdata : (o1.valor ++ "\n---\n" ++ o2.valor).data =
      o1.valor.data ++ '\n' :: '-' :: '-' :: '-' :: '\n' :: o2.valor.data := by
    rw [data_append, data_append]
    simp
  rw [hdata] at hC
  rw [normalizarTexto_append_sep o1.valor.data o2.valor.data h1 h2 hne1 hne2] at hC
  repeat' split at hC
  all_goals cases hC
  rfl

/-- A traslado in initial state carrying a prior observation. -/
def trasladoConNota : Traslado :=
  { trasladoEjemplo with observaciones := ⟨"nota inicial"⟩ }

/-- C6 is false on the code: `marcar_como_revisado` succeeds (estado
becomes REVISADO, funcionario and date are updated) yet appends nothing
to `observaciones` — they are exactly the prior text, so this
successful transition does not append a descriptive entry. -/
theorem marcar_revisado_sin_observacion_contraejemplo :
    (trasladoConNota.marcar_como_revisado "F2" 739518).2 = none ∧
    (trasladoConNota.marcar_como_revisado "F2" 739518).1.estado = .REVISADO ∧
    (trasladoConNota.marcar_como_revisado "F2" 739518).1.funcionario_actual = some "F2" ∧
    (trasladoConNota.marcar_como_revisado "F2" 739518).1.observaciones =
      trasladoConNota.observaciones := by
  refine ⟨by decide, by decide, by decide, by decide⟩

/-- C6 (amended): every successful transition updates
`funcionario_actual` and `fecha_ultima_actualizacion`; `reportar_novedad`,
`resolver_novedad`, `devolver_*` and `marcar_como_recibida` append a
timestamped descriptive entry after the prior observations (prior
content preserved as an exact prefix when both texts are in normal
form); `marcar_como_revisado`/`marcar_como_revisada` touch
`observaciones` not at all, and `completar_*` leaves them untouched
when no final observations are supplied and otherwise rebuilds them as
a timestamped copy of the prior text plus a COMPLETADO/COMPLETADA
line. -/
theorem observaciones_transiciones_amended (t : Traslado) (r : Radicacion)
    (f d : String) (today : Fecha) (ts : String) :
    (t.estado = .ENVIADO_ORGANISMO_DESTINO →
      t.marcar_como_revisado f today =
        ({ t with estado := .REVISADO,
                  funcionario_actual := some (pyUpper (pyStrip f)),
                  fecha_ultima_actualizacion := some today }, none)) ∧
    (t.estado = .REVISADO →
      t.completar_traslado f none today ts =
        ({ t with estado := .TRASLADADO,
                  funcionario_actual := some (pyUpper (pyStrip f)),
                  fecha_ultima_actualizacion := some today }, none)) ∧
    (∀ fin obsTs nueva, t.estado = .REVISADO → fin ≠ "" →
      Observacion.agregar_timestamp_automatico t.observaciones f ts = .ok obsTs →
      Observacion.crear_desde_texto (obsTs.valor ++ "\nCOMPLETADO: " ++ fin) = .ok nueva →
      t.completar_traslado f (some fin) today ts =
        ({ t with estado := .TRASLADADO,
                  funcionario_actual := some (pyUpper (pyStrip f)),
                  fecha_ultima_actualizacion := some today,
                  observaciones := nueva }, none)) ∧
    (∀ entry nueva, t.estado = .REVISADO →
      Observacion.crear_con_timestamp ("NOVEDAD REPORTADA: " ++ d) f ts = .ok entry →
      Observacion.combinar_observaciones [t.observaciones, entry] = .ok nueva →
      (t.reportar_novedad f d today ts =
        ({ t with estado := .CON_NOVEDADES,
                  funcionario_actual := some (pyUpper (pyStrip f)),
                  fecha_ultima_actualizacion := some today,
                  observaciones := nueva }, none)) ∧
      (textoNormalizado t.observaciones.valor.data → textoNormalizado entry.valor.data →
       t.observaciones.esta_vacia = false → entry.esta_vacia = false →
       nueva.valor.data =
         t.observaciones.valor.data ++ '\n' :: '-' :: '-' :: '-' :: '\n' :: entry.valor.data)) ∧
    (∀ entry nueva, t.estado = .CON_NOVEDADES →
      Observacion.crear_con_timestamp ("NOVEDAD RESUELTA: " ++ d) f ts = .ok entry →
      Observacion.combinar_observaciones [t.observaciones, entry] = .ok nueva →
      (t.resolver_novedad f d today ts =
        ({ t with estado := .REVISADO,
                  funcionario_actual := some (pyUpper (pyStrip f)),
                  fecha_ultima_actualizacion := some today,
                  observaciones := nueva }, none)) ∧
      (textoNormalizado t.observaciones.valor.data → textoNormalizado entry.valor.data →
       t.observaciones.esta_vacia = false → entry.esta_vacia = false →
       nueva.valor.data =
         t.observaciones.valor.data ++ '\n' :: '-' :: '-' :: '-' :: '\n' :: entry.valor.data)) ∧
    (∀ es_adm entry nueva, t.puede_ser_devuelto es_adm = true →
      Observacion.crear_con_timestamp ("TRASLADO DEVUELTO: " ++ d) f ts = .ok entry →
      Observacion.combinar_observaciones [t.observaciones, entry] = .ok nueva →
      (t.devolver_traslado f d es_adm today ts =
        ({ t with estado := .DEVUELTO,
                  funcionario_actual := some (pyUpper (pyStrip f)),
                  fecha_ultima_actualizacion := some today,
                  observaciones := nueva }, none)) ∧
      (textoNormalizado t.observaciones.valor.data → textoNormalizado entry.valor.data →
       t.observaciones.esta_vacia = false → entry.esta_vacia = false →
       nueva.valor.data =
         t.observaciones.valor.data ++ '\n' :: '-' :: '-' :: '-' :: '\n' :: entry.valor.data)) ∧
    (∀ entry nueva, r.estado = .PENDIENTE_RADICAR →
      Observacion.crear_con_timestamp
        ("Radicación recibida del " ++ r.organismo_origen.get_nombre_corto) f ts = .ok entry →
      Observacion.combinar_observaciones [r.observaciones, entry] = .ok nueva →
      (r.marcar_como_recibida f today ts =
        ({ r with estado := .RECIBIDO,
                  funcionario_actual := some (pyUpper (pyStrip f)),
                  fecha_ultima_actualizacion := some today,
                  fue_recibida_flag := true,
                  observaciones := nueva }, none)) ∧
      (textoNormalizado r.observaciones.valor.data → textoNormalizado entry.valor.data →
       r.observaciones.esta_vacia = false → entry.esta_vacia = false →
       nueva.valor.data =
         r.observaciones.valor.data ++ '\n' :: '-' :: '-' :: '-' :: '\n' :: entry.valor.data)) ∧
    (r.estado = .RECIBIDO →
      r.marcar_como_revisada f today =
        ({ r with estado := .REVISADO,
                  funcionario_actual := some (pyUpper (pyStrip f)),
                  fecha_ultima_actualizacion := some today }, none)) ∧
    (r.estado = .REVISADO →
      r.completar_radicacion f none today ts =
        ({ r with estado := .RADICADO,
                  funcionario_actual := some (pyUpper (pyStrip f)),
                  fecha_ultima_actualizacion := some today }, none)) ∧
    (∀ entry nueva, r.estado = .REVISADO →
      Observacion.crear_con_timestamp ("NOVEDAD REPORTADA: " ++ d) f ts = .ok entry →
      Observacion.combinar_observaciones [r.observaciones, entry] = .ok nueva →
      r.reportar_novedad f d today ts =
        ({ r with estado := .CON_NOVEDADES,
                  funcionario_actual := some (pyUpper (pyStrip f)),
                  fecha_ultima_actualizacion := some today,
                  observaciones := nueva }, none)) ∧
    (∀ entry nueva, r.estado = .CON_NOVEDADES →
      Observacion.crear_con_timestamp ("NOVEDAD RESUELTA: " ++ d) f ts = .ok entry →
      Observacion.combinar_observaciones [r.observaciones, entry] = .ok nueva →
      r.resolver_novedad f d today ts =
        ({ r with estado := .REVISADO,
                  funcionario_actual := some (pyUpper (pyStrip f)),
                  fecha_ultima_actualizacion := some today,
                  observaciones := nueva }, none)) ∧
    (∀ es_adm entry nueva, r.puede_ser_devuelta es_adm = true →
      Observacion.crear_con_timestamp ("RADICACIÓN DEVUELTA: " ++ d) f ts = .ok entry →
      Observacion.combinar_observaciones [r.observaciones, entry] = .ok nueva →
      r.devolver_radicacion f d es_adm today ts =
        ({ r with estado := .DEVUELTO,
                  funcionario_actual := some (pyUpper (pyStrip f)),
                  fecha_ultima_actualizacion := some today,
                  observaciones := nueva }, none)) := by
  refine ⟨?_, ?_, ?_, ?_, ?_, ?_, ?_, ?_, ?_, ?_, ?_, ?_⟩
  · intro he
    unfold Traslado.marcar_como_revisado
    simp [Traslado.puede_pasar_a_revision, he]
  · intro he
    unfold Traslado.completar_traslado
    simp [Traslado.puede_completar_traslado, he]
  · intro fin obsTs nueva he hfin hTs hN
    unfold Traslado.completar_traslado
    simp [Traslado.puede_completar_traslado, he, hfin, hTs, hN]
  · intro entry nueva he hE hC
    constructor
    · unfold Traslado.reportar_novedad
      simp [Traslado.puede_reportar_novedad, he, hE, hC]
    · intro hN1 hN2 hv1 hv2
      exact combinar_ok_append _ entry nueva hN1 hN2 hv1 hv2 hC
  · intro entry nueva he hE hC
    constructor
    · unfold Traslado.resolver_novedad
      simp [Traslado.puede_resolver_novedad, he, hE, hC]
    · intro hN1 hN2 hv1 hv2
      exact combinar_ok_append _ entry nueva hN1 hN2 hv1 hv2 hC
  · intro es_adm entry nueva hg hE hC
    constructor
    · unfold Traslado.devolver_traslado
      simp [hg, hE, hC]
    · intro hN1 hN2 hv1 hv2
      exact combinar_ok_append _ entry nueva hN1 hN2 hv1 hv2 hC
  · intro entry nueva he hE hC
    constructor
    · unfold Radicacion.marcar_como_recibida
      simp [Radicacion.puede_ser_recibida, he, hE, hC]
    · intro hN1 hN2 hv1 hv2
      exact combinar_ok_append _ entry nueva hN1 hN2 hv1 hv2 hC
  · intro he
    unfold Radicacion.marcar_como_revisada
    simp [Radicacion.puede_pasar_a_revision, he]
  · intro he
    unfold Radicacion.completar_radicacion
    simp [Radicacion.puede_completar_radicacion, he]
  · intro entry nueva he hE hC
    unfold Radicacion.reportar_novedad
    simp [Radicacion.puede_reportar_novedad, he, hE, hC]
  · intro entry nueva he hE hC
    unfold Radicacion.resolver_novedad
    simp [Radicacion.puede_resolver_novedad, he, hE, hC]
  · intro es_adm entry nueva hg hE hC
    unfold Radicacion.devolver_radicacion
    simp [hg, hE, hC]

/-- A reviewed traslado carrying a prior observation. -/
def trasladoRevisado : Traslado :=
  { trasladoEjemplo with estado := .REVISADO, observaciones := ⟨"nota inicial"⟩ }

set_option maxRecDepth 40000 in
/-- Concrete instantiation of `observaciones_transiciones_amended`:
`marcar_como_revisado` succeeds without touching observations, and
`reportar_novedad` appends the timestamped entry after the prior
"nota inicial" text. -/
theorem observaciones_transiciones_amended_witness :
    trasladoConNota.marcar_como_revisado "F2" 739518 =
      ({ trasladoConNota with
          estado := .REVISADO,
          funcionario_actual := some (pyUpper (pyStrip "F2")),
          fecha_ultima_actualizacion := some 739518 }, none) ∧
    trasladoRevisado.reportar_novedad "F1" "falta soat" 739518 "01/01/2026 10:00" =
      ({ trasladoRevisado with
          estado := .CON_NOVEDADES,
          funcionario_actual := some (pyUpper (pyStrip "F1")),
          fecha_ultima_actualizacion := some 739518,
          observaciones :=
            ⟨"nota inicial\n---\n[01/01/2026 10:00 - F1] NOVEDAD REPORTADA: falta soat"⟩ },
       none) ∧
    (Observacion.valor
        ⟨"nota inicial\n---\n[01/01/2026 10:00 - F1] NOVEDAD REPORTADA: falta soat"⟩).data =
      (Observacion.valor (Observacion.mk "nota inicial")).data ++
        '\n' :: '-' :: '-' :: '-' :: '\n' ::
          (Observacion.valor
            ⟨"[01/01/2026 10:00 - F1] NOVEDAD REPORTADA: falta soat"⟩).data := by
  have h1 := (observaciones_transiciones_amended trasladoConNota radicacionEjemplo
    "F2" "d" 739518 "01/01/2026 10:00").1 (by decide)
  have h4 := (observaciones_transiciones_amended trasladoRevisado radicacionEjemplo
    "F1" "falta soat" 739518 "01/01/2026 10:00").2.2.2.1
    ⟨"[01/01/2026 10:00 - F1] NOVEDAD REPORTADA: falta soat"⟩
    ⟨"nota inicial\n---\n[01/01/2026 10:00 - F1] NOVEDAD REPORTADA: falta soat"⟩
    (by decide) (by decide) (by decide)
  exact ⟨h1, h4.1, h4.2 (by decide) (by decide) (by decide) (by decide)⟩

end CuentasMovilidad
